import Mathlib

/-!
Verification development for the `smart_irrigation_one` chatbot / intent-resolver
subsystem (`irrigation/utils/json_loader.py`, `irrigation/services/knowledge/guide_bot.py`).

Python-specific conventions used throughout the embedding:
* Python strings are Lean `String`s; `str.lower`, `str.strip`, `str.split()`,
  `" ".join`, `in` (substring), `str.capitalize`, `str.islower` are modelled by
  the `py*` helpers below (ASCII data only, which is all the knowledge base uses
  in fields relevant to matching).
* Python `float` scores are modelled by `ℚ`; every score in this code is a sum
  and product of small decimal constants, and no comparison made by the code
  distinguishes the rational value from the float value.
* Python `set` is modelled by `List.dedup`; only cardinalities of intersections
  and iteration over distinct elements are ever used, so order is irrelevant.
-/

namespace SmartIrrigation

/-! ### Python string primitives -/

/-- Python `str.lower()` (ASCII). -/
def pyLower (s : String) : String := ⟨s.data.map Char.toLower⟩

/-- Python `str.strip()`: remove leading/trailing whitespace. -/
def pyStrip (s : String) : String :=
  ⟨((s.data.dropWhile Char.isWhitespace).reverse.dropWhile Char.isWhitespace).reverse⟩

/-- Python `sub in hay` for strings: substring containment. -/
def pyIn (sub hay : String) : Bool := decide (sub.data <:+: hay.data)

/-- Whitespace split into words on `List Char` (Python `str.split()` with no
argument: runs of whitespace separate words, no empty words).  A
non-whitespace character starts a fresh word when the tail is empty or opens
with whitespace, and is otherwise glued onto the first word of the tail\x27s
split. -/
def splitWords : List Char → List (List Char)
  | [] => []
  | c :: cs =>
    if c.isWhitespace then splitWords cs
    else if (cs.head?.getD ' ').isWhitespace then [c] :: splitWords cs
    else
      match splitWords cs with
      | w :: ws => (c :: w) :: ws
      | [] => [[c]]

/-- Python `str.split()` on `String`. -/
def pyWords (s : String) : List String := (splitWords s.data).map (fun l => ⟨l⟩)

/-- Python `" ".join(words)` on `List Char` words. -/
def joinChars : List (List Char) → List Char
  | [] => []
  | [w] => w
  | w :: ws => w ++ ' ' :: joinChars ws

/-- Python `" ".join(words)` on `String` words. -/
def pyJoin (ws : List String) : String := ⟨joinChars (ws.map String.data)⟩

/-- Python `str.capitalize()`: first character uppercased, the rest lowercased. -/
def pyCapitalize (s : String) : String :=
  match s.data with
  | [] => ""
  | c :: rest => ⟨c.toUpper :: rest.map Char.toLower⟩

/-- Python `str.islower()`: at least one cased character and no uppercase one
(ASCII: cased = alphabetic). -/
def pyIslower (s : String) : Bool :=
  s.data.any Char.isAlpha && s.data.all (fun c => !c.isUpper)

/-- Number of distinct elements of `a` also present in `b`:
Python `len(set(a) & set(b))`. -/
def interCount (a b : List String) : Nat :=
  (a.dedup.filter (fun x => b.contains x)).length

/-- Python `len(set(l))`. -/
def setCard (l : List String) : Nat := l.dedup.length

/-- Insert `x` after every already-placed element that `keep`s its place
before `x` (stable insertion). -/
def stableInsert (keep : α → α → Bool) (x : α) : List α → List α
  | [] => [x]
  | y :: ys => if keep y x then y :: stableInsert keep x ys else x :: y :: ys

/-- A stable sort: `keep y x` means an earlier element `y` stays in front of a
later element `x`.  For a total preorder this produces the same list as any
stable sort, in particular Python\x27s `list.sort`. -/
def stableSort (keep : α → α → Bool) (l : List α) : List α :=
  l.foldl (fun acc x => stableInsert keep x acc) []

/-! ### Levenshtein distance (the `Levenshtein.distance` C extension:
standard unit-cost edit distance), implemented by the classic row DP. -/

/-- Next DP row: given current character `a` of the first word, the characters
`bs` of the second word, the previous row `prev` (length `bs.length + 1`) and
the already-computed first cell `cur` of the new row, produce the new row. -/
def levNewRow (a : Char) : List Char → List Nat → Nat → List Nat
  | [], _, cur => [cur]
  | b :: bs, prev, cur =>
    match prev with
    | [] => [cur]
    | p0 :: prest =>
      let pUp := prest.headD 0
      let v := min (min (cur + 1) (pUp + 1)) (p0 + (if a = b then 0 else 1))
      cur :: levNewRow a bs prest v

/-- Unit-cost Levenshtein edit distance. -/
def lev (a b : List Char) : Nat :=
  (a.foldl (fun row ca => levNewRow ca b row (row.headD 0 + 1))
    (List.range (b.length + 1))).getLastD 0

/-- Edit distance on `String`s. -/
def levStr (a b : String) : Nat := lev a.data b.data

/-! ### `JSONIntentLoader` (irrigation/utils/json_loader.py)

The intent files themselves (`irrigation/chatbot_data/*.json`) are not part of
the repository sources, so the loaded intent set is a parameter everywhere: an
association list `category ↦ intents` in dict insertion order, each intent a
`{tag, patterns, responses}` record (the schema of the knowledge files). -/

structure Intent where
  tag : String
  patterns : List String
  responses : List String
deriving DecidableEq

/-- The in-memory `self.intents` dict: categories in insertion order. -/
def IntentSet := List (String × List Intent)

/-- The per-pattern loop of `JSONIntentLoader._calculate_match_score`, carrying
the running `max_score`.  An exact (case-insensitive) pattern match returns 1.0
from the whole function immediately. -/
def patternLoop (query : String) : List String → ℚ → ℚ
  | [], m => m
  | p :: rest, m =>
    let pl := pyLower p
    if query = pl then 1
    else
      let score : ℚ :=
        if pyIn pl query || pyIn query pl then 8/10
        else
          let qw := (pyWords query).dedup
          let pw := (pyWords pl).dedup
          let common := qw.filter (fun w => pw.contains w)
          if common.length ≠ 0 then
            (common.length : ℚ) / (max qw.length pw.length : ℚ) * (6/10)
          else 0
      patternLoop query rest (max m score)

/-- `JSONIntentLoader._calculate_match_score(query, intent)` (`query` already
lowercased and stripped by the caller). -/
def calcMatchScore (query : String) (intent : Intent) : ℚ :=
  patternLoop query intent.patterns 0

/-- The running best of `find_matching_intent`. -/
structure FindState where
  bestMatch : Option Intent
  bestCategory : Option String
  bestScore : ℚ
deriving DecidableEq

/-- Inner loop of `find_matching_intent` over one category's intents. -/
def intentLoop (q : String) (threshold : ℚ) (cat : String) :
    List Intent → FindState → FindState
  | [], st => st
  | i :: rest, st =>
    let score := calcMatchScore q i
    let st' := if score > st.bestScore ∧ score ≥ threshold then
        ⟨some i, some cat, score⟩ else st
    intentLoop q threshold cat rest st'

/-- Outer loop of `find_matching_intent` over categories in dict order. -/
def catLoop (q : String) (threshold : ℚ) :
    List (String × List Intent) → FindState → FindState
  | [], st => st
  | (cat, is) :: rest, st => catLoop q threshold rest (intentLoop q threshold cat is st)

/-- `JSONIntentLoader.find_matching_intent(query, threshold)`; returns the
`(best_match, best_category, best_score)` triple as a `FindState`. -/
def findMatchingIntent (intents : IntentSet) (query : String) (threshold : ℚ) : FindState :=
  catLoop (pyStrip (pyLower query)) threshold intents ⟨none, none, 0⟩

/-- `JSONIntentLoader._generate_suggestions(intent_tag)`. -/
def generateSuggestions (tag : String) : List String :=
  if tag = "user_manual" then ["Download manual", "Setup instructions", "Troubleshooting"]
  else if tag = "watering_frequency" then
    ["Soil moisture", "Weather-based watering", "Schedule setup"]
  else if tag = "contact_support" then ["Phone support", "Email support", "Visit location"]
  else if tag = "emergency_procedure" then ["Emergency stop", "System reset", "Contact support"]
  else if tag = "privacy_policy" then ["Data collection", "Data usage", "Data security"]
  else ["How can I help?", "System status", "Control panel"]

/-- `JSONIntentLoader._get_fallback_suggestions()`. -/
def fallbackSuggestions : List String :=
  ["How to control the pump?", "Show me the dashboard", "Emergency procedures",
   "Contact support"]

/-- `JSONIntentLoader._get_random_response(responses)`.  The random choice is
modelled by the `pick` parameter. -/
def getRandomResponse (pick : List String → String) (responses : List String) : String :=
  if responses.isEmpty then "I'm here to help!" else pick responses

/-- Result dict of `JSONIntentLoader.get_response`. -/
structure JsonResponse where
  matched : Bool
  rtype : Option String
  category : Option String
  intentTag : Option String
  responseText : String
  confidence : ℚ
  suggestions : List String
deriving DecidableEq

/-- The no-match branch of `get_response`. -/
def jsonNoMatch : JsonResponse :=
  { matched := false, rtype := none, category := none, intentTag := none
    responseText := "I'm not sure how to help with that. Could you try rephrasing your question?"
    confidence := 0, suggestions := fallbackSuggestions }

/-- `JSONIntentLoader.get_response(query)`.  `pick` models `random.choice`.
(An intent record present in a knowledge file is a non-empty dict, so the
Python truthiness test `if intent` holds exactly when `best_match` is not
`None`.) -/
def getResponse (pick : List String → String) (intents : IntentSet)
    (query : String) : JsonResponse :=
  let st := findMatchingIntent intents query (6/10)
  match st.bestMatch with
  | some intent =>
    if st.bestScore ≥ 6/10 then
      { matched := true, rtype := some "json_intent", category := st.bestCategory
        intentTag := some intent.tag
        responseText := getRandomResponse pick intent.responses
        confidence := st.bestScore, suggestions := generateSuggestions intent.tag }
    else jsonNoMatch
  | none => jsonNoMatch

/-! ### `SpellingCorrector` (guide_bot.py)

`self.irrigation_terms` is a dict literal; only its key iteration order matters
to `correct_spelling` (the weights are never read there).  The literal repeats
the key `'stop'`: a Python dict keeps the first position of a repeated key, so
the key list is the source order with duplicates removed at their later
positions. -/

/-- The `irrigation_terms` dict literal: `(term, weight)` pairs in source
order, including the repeated `'stop'` entry. -/
def irrigationTermPairs : List (String × Nat) :=
  [("pump", 10), ("valve", 10), ("water", 10), ("irrigation", 10), ("system", 9),
   ("schedule", 9), ("zone", 9), ("moisture", 8), ("sensor", 8), ("dashboard", 8),
   ("control", 8), ("emergency", 8), ("stop", 8), ("settings", 7), ("analytics", 7),
   ("status", 7), ("threshold", 7), ("manual", 7), ("automatic", 7), ("help", 6),
   ("pressure", 6), ("flow", 6), ("timer", 6), ("sprinkler", 6), ("pipe", 5),
   ("nozzle", 5), ("filter", 5), ("pipeline", 5), ("drip", 5), ("spray", 5),
   ("weather", 5), ("rain", 5), ("forecast", 5), ("humidity", 5), ("temperature", 5),
   ("start", 6), ("stop", 6), ("open", 6), ("close", 6), ("activate", 6),
   ("deactivate", 6), ("set", 6), ("change", 6), ("adjust", 6), ("check", 6),
   ("view", 6), ("show", 6), ("display", 6), ("monitor", 6), ("test", 5),
   ("problem", 7), ("issue", 7), ("error", 7), ("fix", 7), ("repair", 7),
   ("broken", 7), ("leak", 7), ("clog", 7), ("blockage", 6), ("malfunction", 6)]

/-- `self.irrigation_terms.keys()` in dict iteration order. -/
def irrigationTermKeys : List String := (irrigationTermPairs.map Prod.fst).dedup

/-- `self.common_misspellings`, in dict insertion order. -/
def commonMisspellings : List (String × String) :=
  [("pum", "pump"), ("valv", "valve"), ("irigation", "irrigation"),
   ("moistre", "moisture"), ("scedule", "schedule"), ("dashbord", "dashboard"),
   ("controll", "control"), ("emergancy", "emergency"), ("threshhold", "threshold"),
   ("analitics", "analytics"), ("manualy", "manually"), ("automaticaly", "automatically"),
   ("nozle", "nozzle"), ("sprinkeler", "sprinkler"), ("preassure", "pressure"),
   ("temprature", "temperature"), ("humidty", "humidity"), ("forcast", "forecast")]

/-- The f-string `f"'{word}' â†’ '{correction}'"` of `correct_spelling` (the
arrow in the source file is the literal three characters U+00E2 U+2020 U+2019). -/
def correctionNote (word correction : String) : String :=
  "\'" ++ word ++ "\' â†’ \'" ++ correction ++ "\'"

/-- The closest-term search of `correct_spelling`: iterate the term keys,
keeping the first term that strictly improves the best distance, accepting
only distances ≤ 2 (`best_distance` starts at infinity, modelled by `none`). -/
def closestTerm (lw : String) : List String → Option String × Option Nat → Option String × Option Nat
  | [], acc => acc
  | t :: rest, (best, bestD) =>
    let d := levStr lw (pyLower t)
    let improves := match bestD with | none => true | some bd => decide (d < bd)
    let acc' := if improves && decide (d ≤ 2) then (some t, some d) else (best, bestD)
    closestTerm lw rest acc'

/-- One iteration of the word loop of `SpellingCorrector.correct_spelling`:
returns the word appended to `corrected_words` and the correction note
appended to `corrections`, if any. -/
def correctWord (word : String) : String × Option String :=
  let lowerWord := pyLower word
  match commonMisspellings.lookup lowerWord with
  | some c =>
    let correction := if (word.data.headD ' ').isUpper then pyCapitalize c else c
    (correction, some (correctionNote word correction))
  | none =>
    if !(irrigationTermKeys.map pyLower).contains lowerWord then
      match (closestTerm lowerWord irrigationTermKeys (none, none)).1 with
      | some bestMatch =>
        let correction := if pyIslower word then bestMatch else pyCapitalize bestMatch
        (correction, some (correctionNote word correction))
      | none => (word, none)
    else (word, none)

/-- `SpellingCorrector.correct_spelling(query)`: the corrected query and the
list of correction notes. -/
def correctSpelling (query : String) : String × List String :=
  let results := (pyWords query).map correctWord
  (pyJoin (results.map Prod.fst), results.filterMap Prod.snd)


/-! ### `IrrigationGuide` knowledge base (guide_bot.py)

`ResourceType` is the `Enum`; iteration `for resource_type in ResourceType`
follows declaration order, which coincides with the insertion order of
`self.resources`.  Each `_load_*` loader below is transcribed from its dict
literal.  Fields that no resolver path ever reads (`content`, `title`,
`steps`, `symptoms`, `parameters`, `estimated_time`, `difficulty`,
`emergency`, `confirmation_required`, `route_info`, `coordinates`) are
omitted; `url` values built by `self._lazy_reverse(name)` are opaque Django
route objects and are modelled by the token `"lazy:" ++ name` (the resolver
only ever passes them through `str(...)`). -/

inductive ResourceType where
  | route | info | command | widget | help | chat | tutorial
  | troubleshooting | contact | emergency | navigation
deriving DecidableEq

/-- Declaration order of the `ResourceType` enum. -/
def ResourceType.all : List ResourceType :=
  [.route, .info, .command, .widget, .help, .chat, .tutorial,
   .troubleshooting, .contact, .emergency, .navigation]

/-- `resource_type.value`. -/
def ResourceType.value : ResourceType → String
  | .route => "route" | .info => "info" | .command => "command"
  | .widget => "widget" | .help => "help" | .chat => "chat"
  | .tutorial => "tutorial" | .troubleshooting => "troubleshooting"
  | .contact => "contact" | .emergency => "emergency" | .navigation => "navigation"

/-- One knowledge-base entry: the fields of the per-resource dicts that the
resolver reads, with the `dict.get` defaults used at each read site
(`keywords` ↦ `[]`, `description` ↦ `""`, `category` ↦ `""`,
`importance` ↦ `5`, `icon`/`navigation_instructions` ↦ `""`). -/
structure ResourceData where
  description : String := ""
  keywords : List String := []
  icon : String := ""
  category : Option String := none
  importance : Option Nat := none
  navigationInstructions : String := ""
  url : Option String := none
  examples : List String := []
  safetyWarning : Option String := none
  safetyNote : Option String := none
deriving DecidableEq

/-- `_load_knowledge` (application routes). -/
def loadKnowledge : List (String × ResourceData) := [

  ("dashboard",
    { description := "Main system dashboard showing current status, sensor readings, and system overview with real-time updates",
      keywords := ["dashboard", "home", "main page", "status", "overview", "homepage", "main"],
      icon := "fa-tachometer-alt",
      category := some "Monitoring",
      importance := some 10,
      navigationInstructions := "Click on the \'Dashboard\' tab in the main navigation menu at the top of the page to view your system overview.",
      url := some "lazy:dashboard" }),
  ("control panel",
    { description := "Manual control center for pumps, valves, and irrigation zones with real-time adjustments and scheduling",
      keywords := ["control", "manual", "pump", "valve", "switch", "manual control", "controls"],
      icon := "fa-sliders-h",
      category := some "Control",
      importance := some 9,
      navigationInstructions := "Go to the header menu and click on \'Control Panel\' to access manual controls for your irrigation system.",
      url := some "lazy:control-panel" }),
  ("analytics",
    { description := "Advanced analytics with charts, graphs, and historical irrigation data visualization",
      keywords := ["analytics", "charts", "graphs", "history", "data", "statistics", "reports"],
      icon := "fa-chart-line",
      category := some "Analysis",
      importance := some 8,
      navigationInstructions := "In the header, click on \'Analytics\' to view detailed charts and reports about your irrigation system.",
      url := some "lazy:visualize-data" }),
  ("download data",
    { description := "Export sensor data as CSV or Excel files for further analysis and reporting",
      keywords := ["download", "export", "get data", "csv", "excel", "export data", "download data"],
      icon := "fa-file-export",
      category := some "Data",
      importance := some 7,
      navigationInstructions := "Navigate to Analytics \u00e2\u2020\u2019 Export Data to download your irrigation data.",
      url := some "lazy:dashboard" }),
  ("help",
    { description := "Comprehensive documentation, user guides, and support resources",
      keywords := ["help", "support", "documentation", "faq", "guide", "manual"],
      icon := "fa-question-circle",
      category := some "Support",
      importance := some 6,
      navigationInstructions := "Click the help icon (?) in the top right corner or visit the Help section from the main menu.",
      url := some "lazy:help" }),
  ("privacy",
    { description := "Our privacy policy and data handling practices for your security",
      keywords := ["privacy", "policy", "data", "protection", "security"],
      icon := "fa-shield-alt",
      category := some "Legal",
      importance := some 3,
      navigationInstructions := "Scroll to the footer and click \'Privacy Policy\' or visit Settings \u00e2\u2020\u2019 Legal.",
      url := some "lazy:privacy" }),
  ("terms",
    { description := "Terms of service and usage agreement for the irrigation system",
      keywords := ["terms", "service", "agreement", "legal", "conditions"],
      icon := "fa-file-contract",
      category := some "Legal",
      importance := some 2,
      navigationInstructions := "Scroll to the footer and click \'Terms of Service\' or visit Settings \u00e2\u2020\u2019 Legal.",
      url := some "lazy:terms" }),
  ("about",
    { description := "Learn about our irrigation system, development team, and achievements",
      keywords := ["about", "information", "team", "developer", "company"],
      icon := "fa-info-circle",
      category := some "Information",
      importance := some 4,
      navigationInstructions := "Click on \'About\' in the footer or navigate via the Help section.",
      url := some "lazy:about" }),
  ("contact",
    { description := "Get in touch with our support team for assistance and inquiries",
      keywords := ["contact", "support", "help", "email", "phone", "contact us"],
      icon := "fa-envelope",
      category := some "Support",
      importance := some 5,
      navigationInstructions := "Click \'Contact Us\' in the footer or go to Help \u00e2\u2020\u2019 Contact Support.",
      url := some "lazy:contact" }),
  ("profile",
    { description := "Manage your user account settings, preferences, and notification options",
      keywords := ["profile", "account", "settings", "user", "preferences"],
      icon := "fa-user",
      category := some "Account",
      importance := some 7,
      navigationInstructions := "Click on your profile picture in the top right corner and select \'Profile Settings\'.",
      url := some "lazy:profile" }),
  ("chatbot",
    { description := "Interactive AI assistant for help with irrigation system management",
      keywords := ["chat", "bot", "assistant", "help", "ask", "ai", "assistant"],
      icon := "fa-robot",
      category := some "Support",
      importance := some 8,
      navigationInstructions := "Click the chat icon in the bottom right corner or go to Help \u00e2\u2020\u2019 Chat Assistant.",
      url := some "lazy:ask_chatbot" }),
  ("scheduling",
    { description := "Create and manage irrigation schedules based on time, weather, or soil conditions",
      keywords := ["schedule", "timer", "plan", "automatic", "watering schedule"],
      icon := "fa-calendar-alt",
      category := some "Control",
      importance := some 8,
      navigationInstructions := "Go to Control Panel \u00e2\u2020\u2019 Scheduling tab to set up your irrigation schedules.",
      url := some "lazy:control-panel" }),
  ("zones",
    { description := "Configure and manage different irrigation zones for targeted watering",
      keywords := ["zones", "areas", "sections", "zone management"],
      icon := "fa-map-marker-alt",
      category := some "Control",
      importance := some 7,
      navigationInstructions := "Navigate to Control Panel \u00e2\u2020\u2019 Zones management to configure your irrigation zones.",
      url := some "lazy:control-panel" })
]

/-- `_load_informational_pages`. -/
def loadInformationalPages : List (String × ResourceData) := [
  ("water conservation",
    { description := "Learn about water-saving techniques and efficient irrigation practices",
      keywords := ["water", "save", "conservation", "efficient", "saving"],
      icon := "fa-tint-slash",
      category := some "Education",
      importance := some 7,
      navigationInstructions := "Visit the Knowledge Base \u00e2\u2020\u2019 Water Conservation section for detailed guides" }),
  ("system maintenance",
    { description := "Guidelines for maintaining your irrigation system for optimal performance",
      keywords := ["maintenance", "repair", "service", "checkup", "winterize"],
      icon := "fa-tools",
      category := some "Maintenance",
      importance := some 6,
      navigationInstructions := "Go to Help \u00e2\u2020\u2019 Maintenance Guides for detailed maintenance schedules and procedures" }),
  ("plant watering needs",
    { description := "Understand different watering requirements for various plant types",
      keywords := ["plants", "watering", "needs", "vegetables", "lawn", "garden"],
      icon := "fa-leaf",
      category := some "Education",
      importance := some 5,
      navigationInstructions := "Check the Plant Database in the Knowledge Base for specific watering requirements" })
]

/-- `_load_control_commands`. -/
def loadControlCommands : List (String × ResourceData) := [
  ("pump",
    { description := "Control the main water pump (turn on/off) for the entire irrigation system",
      keywords := ["pump", "water pump", "activate pump", "main pump", "water supply"],
      icon := "fa-tint",
      navigationInstructions := "Go to Control Panel \u00e2\u2020\u2019 Pumps section \u00e2\u2020\u2019 Use the toggle switch to control the pump",
      examples := ["Turn on the pump", "Activate water pump", "Stop the pump", "Set pump to ON", "Start main water pump"],
      safetyNote := some "Ensure water supply is available before activating pump" }),
  ("valve",
    { description := "Control individual irrigation valves (open/close) for specific zones",
      keywords := ["valve", "water valve", "open valve", "close valve", "irrigation valve"],
      icon := "fa-faucet",
      navigationInstructions := "Navigate to Control Panel \u00e2\u2020\u2019 Valves section \u00e2\u2020\u2019 Select your zone \u00e2\u2020\u2019 Use the control buttons",
      examples := ["Open valve for zone 1", "Close irrigation valve 3", "Turn on zone 2 valve", "Activate valve in area 4"] }),
  ("emergency",
    { description := "Activate or deactivate emergency stop (immediately shuts down all systems)",
      keywords := ["emergery", "stop", "shutdown", "safety", "emergency stop", "kill switch"],
      icon := "fa-exclamation-triangle",
      navigationInstructions := "\u00f0\u0178\u0161\u00a8 Click the red emergency button in the header or go to Control Panel \u00e2\u2020\u2019 Emergency section",
      examples := ["Activate emergency stop", "Trigger emergency shutdown", "Reset emergency stop", "Disable emergency mode", "Engage safety shutdown"],
      safetyWarning := some "EMERGENCY STOP will immediately shut down ALL irrigation systems. Only use in case of actual emergency like floods, leaks, or equipment failure!" }),
  ("mode",
    { description := "Switch between automatic and manual operation modes",
      keywords := ["mode", "switch mode", "automatic", "manual", "operation mode"],
      icon := "fa-cogs",
      navigationInstructions := "Go to Control Panel \u00e2\u2020\u2019 Settings \u00e2\u2020\u2019 Operation Mode to switch between manual and automatic",
      examples := ["Switch to manual mode", "Set to automatic mode", "Change to manual control", "Enable automatic watering"] }),
  ("threshold",
    { description := "Set moisture threshold levels for automatic irrigation triggers",
      keywords := ["threshold", "moisture level", "set threshold", "sensitivity", "moisture setting"],
      icon := "fa-percentage",
      navigationInstructions := "Navigate to Control Panel \u00e2\u2020\u2019 Settings \u00e2\u2020\u2019 Thresholds to adjust moisture sensitivity levels",
      examples := ["Set threshold to 40%", "Change moisture threshold to 35", "Adjust watering threshold for zone 2", "Set sensitivity to 30%"] }),
  ("schedule",
    { description := "Create or modify irrigation schedules for automated watering",
      keywords := ["schedule", "timer", "plan irrigation", "watering schedule", "irrigation plan"],
      icon := "fa-clock",
      navigationInstructions := "Go to Control Panel \u00e2\u2020\u2019 Scheduling \u00e2\u2020\u2019 Create New Schedule to set up automated watering",
      examples := ["Schedule irrigation for tomorrow at 6 AM", "Create watering schedule for 30 minutes", "Plan irrigation for zones 1 and 3", "Set daily watering at 7 PM for 45 minutes"] }),
  ("stop all",
    { description := "Stop all currently active irrigation processes immediately",
      keywords := ["stop", "halt", "cancel", "stop all", "end irrigation"],
      icon := "fa-stop-circle",
      navigationInstructions := "Click the \'Stop All\' button in the Control Panel or use the emergency stop for immediate shutdown",
      examples := ["Stop all irrigation", "Halt watering immediately", "Cancel current irrigation", "Stop all zones"] }),
  ("status",
    { description := "Check current system status, sensor readings, and active operations",
      keywords := ["status", "check", "system status", "current state", "what\'s running"],
      icon := "fa-info-circle",
      navigationInstructions := "View the Dashboard for an overview or go to Control Panel \u00e2\u2020\u2019 Status for detailed information",
      examples := ["Check system status", "What is currently running?", "Show current operations", "Display sensor readings"] })
]

/-- `_load_dashboard_widgets`. -/
def loadDashboardWidgets : List (String × ResourceData) := [
  ("moisture levels",
    { description := "View current soil moisture levels across all irrigation zones",
      keywords := ["moisture", "soil", "sensor", "levels", "wetness"],
      icon := "fa-percentage",
      category := some "Monitoring",
      importance := some 8,
      navigationInstructions := "View the Moisture Levels widget on your Dashboard or go to Analytics \u00e2\u2020\u2019 Soil Moisture" }),
  ("water usage",
    { description := "Track water consumption over time with detailed analytics",
      keywords := ["water", "usage", "consumption", "gallons", "liters", "meter"],
      icon := "fa-chart-bar",
      category := some "Analytics",
      importance := some 7,
      navigationInstructions := "Check the Water Usage widget on your Dashboard or go to Analytics \u00e2\u2020\u2019 Water Consumption" }),
  ("weather forecast",
    { description := "Integrated weather data to help plan irrigation based on conditions",
      keywords := ["weather", "forecast", "rain", "temperature", "humidity"],
      icon := "fa-cloud-sun",
      category := some "Planning",
      importance := some 6,
      navigationInstructions := "View the Weather Forecast widget on your Dashboard or go to Analytics \u00e2\u2020\u2019 Weather" }),
  ("system health",
    { description := "Monitor the overall health and status of your irrigation system",
      keywords := ["health", "status", "system", "diagnostics", "performance"],
      icon := "fa-heartbeat",
      category := some "Monitoring",
      importance := some 9,
      navigationInstructions := "Check the System Health widget on your Dashboard or go to Control Panel \u00e2\u2020\u2019 System Status" })
]

/-- `_load_help_resources`. -/
def loadHelpResources : List (String × ResourceData) := [
  ("user manual",
    { description := "Complete user manual with detailed instructions for all features",
      keywords := ["manual", "guide", "instructions", "documentation", "how to"],
      icon := "fa-book",
      category := some "Documentation",
      importance := some 8,
      navigationInstructions := "Go to Help \u00e2\u2020\u2019 User Manual or click the documentation link in the footer",
      url := some "/help/manual" }),
  ("video tutorials",
    { description := "Step-by-step video guides for common tasks and setup procedures",
      keywords := ["video", "tutorial", "how to", "watch", "demonstration"],
      icon := "fa-video",
      category := some "Learning",
      importance := some 7,
      navigationInstructions := "Visit Help \u00e2\u2020\u2019 Video Tutorials to watch guided demonstrations",
      url := some "/help/videos" }),
  ("faq",
    { description := "Frequently asked questions and answers about the irrigation system",
      keywords := ["faq", "questions", "answers", "common", "problems"],
      icon := "fa-question-circle",
      category := some "Support",
      importance := some 6,
      navigationInstructions := "Go to Help \u00e2\u2020\u2019 FAQ for answers to common questions",
      url := some "/help/faq" }),
  ("community forum",
    { description := "Connect with other users, share tips, and get community support",
      keywords := ["community", "forum", "discussion", "users", "share"],
      icon := "fa-users",
      category := some "Community",
      importance := some 5,
      navigationInstructions := "Visit Community \u00e2\u2020\u2019 Forum from the main menu to join discussions",
      url := some "/forum" })
]

/-- `_load_tutorials`. -/
def loadTutorials : List (String × ResourceData) := [
  ("getting started",
    { description := "Complete beginner\'s guide to setting up and using your irrigation system",
      icon := "fa-play-circle",
      navigationInstructions := "Go to Tutorials \u00e2\u2020\u2019 Getting Started for a step-by-step guide" }),
  ("schedule setup",
    { description := "Learn how to create and manage automated watering schedules",
      icon := "fa-calendar-check",
      navigationInstructions := "Visit Tutorials \u00e2\u2020\u2019 Scheduling to learn how to set up automated irrigation" }),
  ("water conservation",
    { description := "Optimize your irrigation for maximum water efficiency",
      icon := "fa-tint-slash",
      navigationInstructions := "Check Tutorials \u00e2\u2020\u2019 Water Conservation for water-saving techniques" })
]

/-- `_load_troubleshooting_guides`. -/
def loadTroubleshootingGuides : List (String × ResourceData) := [
  ("pump not working",
    { description := "Troubleshoot issues with water pump not starting",
      icon := "fa-tint",
      navigationInstructions := "Go to Troubleshooting \u00e2\u2020\u2019 Pump Issues for detailed guidance" }),
  ("low water pressure",
    { description := "Address issues with low water pressure in irrigation system",
      icon := "fa-compress-arrows-alt",
      navigationInstructions := "Visit Troubleshooting \u00e2\u2020\u2019 Water Pressure for solutions" }),
  ("sensor issues",
    { description := "Troubleshoot problems with soil moisture sensors",
      icon := "fa-temperature-low",
      navigationInstructions := "Go to Troubleshooting \u00e2\u2020\u2019 Sensor Problems for help with sensor issues" }),
  ("leak detection",
    { description := "Identify and address potential water leaks in the system",
      icon := "fa-faucet-drip",
      navigationInstructions := "\u00f0\u0178\u0161\u00a8 For suspected leaks, go to Emergency Procedures \u00e2\u2020\u2019 Leak Detection immediately" })
]

/-- `_load_contact_information` (matching-relevant fields; the payload fields are in `contactInfoData` below). -/
def loadContactInformation : List (String × ResourceData) := [
  ("contact",
    { description := "Get in touch with our support team for assistance and inquiries",
      navigationInstructions := "Scroll to the footer and click \'Contact Us\' or go to Help \u00e2\u2020\u2019 Contact Support" })
]

/-- `_load_emergency_resources` (matching-relevant fields). -/
def loadEmergencyResources : List (String × ResourceData) := [
  ("emergency_procedures",
    { description := "Step-by-step instructions for handling irrigation system emergencies",
      navigationInstructions := "\u00f0\u0178\u0161\u00a8 For emergencies, use the red emergency button in the header or go to Emergency Procedures" })
]

/-- `_load_navigation_guides`. -/
def loadNavigationGuides : List (String × ResourceData) := [
  ("header navigation",
    { description := "Learn how to navigate through the irrigation system using the header menu",
      icon := "fa-bars",
      category := some "Navigation" }),
  ("emergency access",
    { description := "How to quickly access emergency features from anywhere in the system",
      icon := "fa-exclamation-triangle",
      category := some "Emergency" }),
  ("dashboard overview",
    { description := "Learn how to interpret and use your irrigation system dashboard",
      icon := "fa-tachometer-alt",
      category := some "Navigation" })
]

/-! ### Chat responses and contact data -/

/-- An action dict inside a chat response (`text` plus optional
`action`/`command`/`style`/`navigation` keys). -/
structure ChatAction where
  text : String
  action : Option String := none
  command : Option String := none
  style : Option String := none
  navigation : Option String := none
deriving DecidableEq

/-- A settings option dict of `settings_info` (`default` renamed
`defaultOn`). -/
structure ChatOption where
  name : String
  description : String
  defaultOn : Bool
deriving DecidableEq

/-- A `_load_chat_responses` entry. -/
structure ChatData where
  response : String := ""
  suggestions : Option (List String) := none
  quickActions : Option (List ChatAction) := none
  actions : Option (List ChatAction) := none
  options : Option (List ChatOption) := none
  followUp : Option String := none
  showOriginal : Option Bool := none
deriving DecidableEq

/-- `_load_chat_responses`. -/
def loadChatResponses : List (String × ChatData) := [

  ("greeting",
    { response := "Hello! I\'m your irrigation assistant. I can help you manage your system, answer questions, and troubleshoot issues. What would you like to know today?",
      suggestions := some ["How do I control the pump?", "What\'s my soil moisture?", "Emergency stop info", "Set up a watering schedule", "Troubleshoot a problem"],
      quickActions := some [{ text := "View System Status", action := some "status" },
        { text := "Quick Tutorial", action := some "tutorial getting started" }] }),
  ("emergency_info",
    { response := "\u00f0\u0178\u0161\u00a8 **EMERGENCY STOP INFORMATION**\n\nThe emergency stop immediately shuts down ALL irrigation systems. This should only be used in actual emergencies such as:\n\n\u00e2\u20ac\u00a2 Major water leaks or floods\n\u00e2\u20ac\u00a2 Equipment malfunction\n\u00e2\u20ac\u00a2 Safety hazards\n\u00e2\u20ac\u00a2 Pipe bursts\n\n\u00e2\u0161\u00a0\u00ef\u00b8 **Warning**: This will stop all active irrigation immediately!",
      actions := some [{ text := "\u00f0\u0178\u0161\u00a8 Activate Emergency Stop Now", command := some "emergency true", style := some "danger", navigation := some "Click the red emergency button in the header or go to Control Panel \u00e2\u2020\u2019 Emergency section" },
        { text := "Learn More About Emergency Procedures", action := some "info emergency procedures", style := some "warning" },
        { text := "Contact Emergency Support", action := some "contact emergency", style := some "info" }],
      followUp := some "Would you like to activate the emergency stop now?" }),
  ("clear_chat_confirmation",
    { response := "Are you sure you want to clear the chat history? This action cannot be undone.",
      actions := some [{ text := "\u00e2\u0153\u2026 Yes, Clear Chat", action := some "confirm_clear_chat", style := some "danger" },
        { text := "\u00e2\u0152 No, Keep History", action := some "cancel_clear_chat", style := some "secondary" }] }),
  ("settings_info",
    { response := "You can customize your chat experience with these settings:",
      actions := some [{ text := "Save Settings", action := some "save_settings", style := some "success" },
        { text := "Reset to Defaults", action := some "reset_settings", style := some "secondary" }],
      options := some [{ name := "Save Chat History", description := "Store your conversation history between sessions", defaultOn := true },
        { name := "Typing Indicators", description := "Show when the assistant is typing", defaultOn := true },
        { name := "Sound Notifications", description := "Play sounds for new messages", defaultOn := false }] }),
  ("thanks",
    { response := "You\'re welcome! \u00f0\u0178\u02dc\u0160 I\'m always here to help with your irrigation system. Is there anything else you\'d like to know?",
      suggestions := some ["How\'s my water usage?", "Show me the control panel", "Set up a schedule", "Check system health"] }),
  ("goodbye",
    { response := "Goodbye! \u00f0\u0178\u2018\u2039 Remember, you can always come back if you need help with your irrigation system. Have a great day!",
      quickActions := some [{ text := "Quick Help", action := some "help" },
        { text := "System Status", action := some "status" }] }),
  ("spelling_correction",
    { response := "I noticed some possible spelling issues in your query. I\'ve corrected it to: \"{corrected_query}\"",
      followUp := some "Is this what you meant to ask?",
      showOriginal := some true })
]

/-- A contact method as emitted by `get_contact_response` (`type` renamed
`mtype`; `details` is `method.get("availability") or method.get("response_time", "")`). -/
structure ContactMethodOut where
  mtype : String
  label : String
  value : String
  icon : String
  action : String
  details : String
deriving DecidableEq

/-- A social-media link as emitted by `get_contact_response`. -/
structure SocialMediaOut where
  platform : String
  url : String
  icon : String
  label : String
deriving DecidableEq

/-- A quick action of the contact payload (`type` renamed `qtype`). -/
structure ContactQuickAction where
  text : String
  action : String
  qtype : String
deriving DecidableEq

/-- The dict returned by `get_contact_response()` (`type` renamed `ptype`).
Its `methods` and `social_media` lists are built by iterating the
`_load_contact_information` sub-dicts in insertion order. -/
structure ContactPayload where
  matched : Bool
  ptype : String
  title : String
  description : String
  methods : List ContactMethodOut
  socialMedia : List SocialMediaOut
  quickActions : List ContactQuickAction
  navigationInstructions : String
deriving DecidableEq

/-- `IrrigationGuide.get_contact_response()`. -/
def getContactResponse : ContactPayload :=
  { matched := true, ptype := "contact", title := "Contact Information",
    description := "Get in touch with our support team for assistance and inquiries",
    methods := [
      { mtype := "phone", label := "Call Us", value := "+256 780 443345",
        icon := "fa-phone-alt", action := "tel:+256780443345",
        details := "Mon-Fri: 8:00 AM - 5:00 PM" },
      { mtype := "email", label := "Email Us", value := "nduwayomorris@gmail.com",
        icon := "fa-envelope", action := "mailto:nduwayomorris@gmail.com",
        details := "Within 24 hours" },
      { mtype := "location", label := "Visit Us",
        value := "Kyebando roundabout, Kampala City, Uganda",
        icon := "fa-map-marker-alt",
        action := "https://maps.google.com?q=Kyebando+roundabout,Kampala+City,Uganda",
        details := "" }],
    socialMedia := [
      { platform := "facebook", url := "https://www.facebook.com/magnus.morris.79",
        icon := "fab fa-facebook-f", label := "Facebook" },
      { platform := "twitter", url := "https://x.com/NduwayoMorris",
        icon := "fab fa-x-twitter", label := "X (Twitter)" },
      { platform := "linkedin", url := "https://www.linkedin.com/in/nduwayo-morris",
        icon := "fab fa-linkedin-in", label := "LinkedIn" },
      { platform := "whatsapp", url := "https://wa.me/+256780443345",
        icon := "fab fa-whatsapp", label := "WhatsApp" }],
    quickActions := [
      { text := "ðŸ“ž Call Now", action := "tel:+256780443345", qtype := "phone" },
      { text := "âœ‰ï¸ Send Email", action := "mailto:nduwayomorris@gmail.com",
        qtype := "email" },
      { text := "ðŸ—ºï¸ Get Directions",
        action := "https://maps.google.com?q=Kyebando+roundabout,Kampala+City,Uganda",
        qtype := "map" }],
    navigationInstructions := "Scroll to the footer and click \'Contact Us\' or go to Help â†’ Contact Support" }

/-- A contact entry of the emergency payload (`type` renamed `ctype`). -/
structure EmergencyContactOut where
  ctype : String
  label : String
  value : String
  icon : String
  action : String
  description : String
deriving DecidableEq

/-- The dict returned by `get_emergency_contact_info()` (`type` renamed
`ptype`; its quick actions have `text`/`action`/`style` keys, a `ChatAction`
shape). -/
structure EmergencyPayload where
  matched : Bool
  ptype : String
  title : String
  description : String
  contacts : List EmergencyContactOut
  quickActions : List ChatAction
  navigationInstructions : String
deriving DecidableEq

/-- `IrrigationGuide.get_emergency_contact_info()`. -/
def getEmergencyContactInfo : EmergencyPayload :=
  { matched := true, ptype := "emergency_contact",
    title := "ðŸš¨ Emergency Support",
    description := "Immediate assistance for critical irrigation system issues",
    contacts := [
      { ctype := "urgent_phone", label := "Emergency Hotline", value := "+256 780 443345",
        icon := "fa-phone-alt", action := "tel:+256780443345",
        description := "24/7 emergency support for critical system failures" },
      { ctype := "whatsapp", label := "WhatsApp Support", value := "+256 780 443345",
        icon := "fab fa-whatsapp", action := "https://wa.me/+256780443345",
        description := "Quick messaging for urgent issues" },
      { ctype := "email", label := "Emergency Email", value := "nduwayomorris@gmail.com",
        icon := "fa-envelope",
        action := "mailto:nduwayomorris@gmail.com?subject=EMERGENCY%20-%20Irrigation%20System%20Issue",
        description := "For detailed emergency reports" }],
    quickActions := [
      { text := "ðŸš¨ Call Emergency Line", action := some "tel:+256780443345",
        style := some "danger" },
      { text := "ðŸ’¬ WhatsApp Emergency", action := some "https://wa.me/+256780443345",
        style := some "success" }],
    navigationInstructions := "ðŸš¨ Use the red emergency button in the header for immediate assistance" }

/-- The chat names also sit in `self.resources[ResourceType.CHAT]`, so
`find_best_match` iterates them; none of their dicts has `description` or
`keywords` keys, so all matching reads hit the `dict.get` defaults. -/
def chatResourceEntries : List (String × ResourceData) :=
  loadChatResponses.map (fun nc => (nc.1, {}))

/-- `self.resources`: the full knowledge base in `ResourceType` order. -/
def resources : List (ResourceType × List (String × ResourceData)) :=
  [(.route, loadKnowledge), (.info, loadInformationalPages),
   (.command, loadControlCommands), (.widget, loadDashboardWidgets),
   (.help, loadHelpResources), (.chat, chatResourceEntries),
   (.tutorial, loadTutorials), (.troubleshooting, loadTroubleshootingGuides),
   (.contact, loadContactInformation), (.emergency, loadEmergencyResources),
   (.navigation, loadNavigationGuides)]


/-! ### `difflib.get_close_matches` (stdlib) as used by `find_best_match`

`get_close_matches(word, possibilities, n=3, cutoff=0.5)` uses
`SequenceMatcher` with `a = possibility`, `b = word` and no junk predicate.
`quick_ratio`/`real_quick_ratio` are documented upper bounds of `ratio`, so
the stdlib's three-stage gate keeps exactly the possibilities with
`ratio ≥ cutoff`; `_nlargest(n, ...)` keeps the `n` largest `(ratio, x)`
pairs in descending lexicographic tuple order. -/

/-- `b2j`: positions of `c` in `b`, ascending.  The autojunk heuristic drops
characters occurring in more than 1% of `b` when `b` has ≥ 200 characters. -/
def b2jPositions (b : List Char) (c : Char) : List Nat :=
  if b.length ≥ 200 ∧ b.count c > b.length / 100 + 1 then []
  else (List.range b.length).filter (fun j => b.getD j ' ' = c)

/-- Running best of `find_longest_match`: `(besti, bestj, bestsize)`. -/
structure FLMBest where
  besti : Nat
  bestj : Nat
  bestsize : Nat
deriving DecidableEq

/-- Inner loop of `find_longest_match` over `b2j[a[i]]`: builds `newj2len` and
updates the best block; positions `< blo` are skipped, `≥ bhi` break. -/
def flmInner (j2len : List (Nat × Nat)) (blo bhi i : Nat) :
    List Nat → List (Nat × Nat) → FLMBest → List (Nat × Nat) × FLMBest
  | [], newj2len, best => (newj2len, best)
  | j :: js, newj2len, best =>
    if j < blo then flmInner j2len blo bhi i js newj2len best
    else if j ≥ bhi then (newj2len, best)
    else
      let k := (if j = 0 then 0 else (j2len.lookup (j - 1)).getD 0) + 1
      let newj2len := (j, k) :: newj2len
      let best := if k > best.bestsize then
          ⟨i + 1 - k, j + 1 - k, k⟩ else best
      flmInner j2len blo bhi i js newj2len best

/-- Main dynamic-programming loop of `find_longest_match` over `i ∈ [alo, ahi)`. -/
def flmOuter (a b : List Char) (blo bhi : Nat) :
    List Nat → List (Nat × Nat) → FLMBest → FLMBest
  | [], _, best => best
  | i :: is, j2len, best =>
    let (newj2len, best) := flmInner j2len blo bhi i (b2jPositions b (a.getD i ' ')) [] best
    flmOuter a b blo bhi is newj2len best

/-- Leftward extension of the best block over equal characters (with an empty
junk set the two junk-extension loops of the stdlib never run). -/
def flmExtendLeft (a b : List Char) (alo blo : Nat) :
    Nat → FLMBest → FLMBest
  | 0, best => best
  | fuel + 1, best =>
    if best.besti > alo ∧ best.bestj > blo ∧
        a.getD (best.besti - 1) ' ' = b.getD (best.bestj - 1) '!' then
      flmExtendLeft a b alo blo fuel
        ⟨best.besti - 1, best.bestj - 1, best.bestsize + 1⟩
    else best

/-- Rightward extension of the best block over equal characters. -/
def flmExtendRight (a b : List Char) (ahi bhi : Nat) :
    Nat → FLMBest → FLMBest
  | 0, best => best
  | fuel + 1, best =>
    if best.besti + best.bestsize < ahi ∧ best.bestj + best.bestsize < bhi ∧
        a.getD (best.besti + best.bestsize) ' '
          = b.getD (best.bestj + best.bestsize) '!' then
      flmExtendRight a b ahi bhi fuel ⟨best.besti, best.bestj, best.bestsize + 1⟩
    else best

/-- `SequenceMatcher.find_longest_match(alo, ahi, blo, bhi)`. -/
def findLongestMatch (a b : List Char) (alo ahi blo bhi : Nat) : FLMBest :=
  let best := flmOuter a b blo bhi
    ((List.range ahi).filter (fun i => alo ≤ i)) [] ⟨alo, blo, 0⟩
  let best := flmExtendLeft a b alo blo (best.besti + 1) best
  flmExtendRight a b ahi bhi (ahi + 1) best

/-- Total size of all matching blocks (the recursive split of
`get_matching_blocks`; sorting and merging adjacent blocks do not change the
total, which is all `ratio` needs). -/
def matchingTotal (a b : List Char) : Nat → Nat → Nat → Nat → Nat → Nat
  | 0, _, _, _, _ => 0
  | fuel + 1, alo, ahi, blo, bhi =>
    let m := findLongestMatch a b alo ahi blo bhi
    if m.bestsize = 0 then 0
    else
      m.bestsize + matchingTotal a b fuel alo m.besti blo m.bestj +
        matchingTotal a b fuel (m.besti + m.bestsize) ahi (m.bestj + m.bestsize) bhi

/-- `SequenceMatcher.ratio()` for `a`, `b`: `2 * M / (len(a) + len(b))`
(`1.0` when both are empty). -/
def seqRatio (a b : List Char) : ℚ :=
  let total := a.length + b.length
  if total = 0 then 1
  else 2 * (matchingTotal a b (a.length + b.length + 1) 0 a.length 0 b.length : ℚ) / total

/-- Descending lexicographic order on the `(score, string)` pairs kept by
`_nlargest` (Python tuple comparison; `str` compares by code points, which is
Lean's `String` order). -/
def pairDescLe (p q : ℚ × String) : Bool :=
  decide (q.1 < p.1) || (decide (p.1 = q.1) && !decide (p.2 < q.2))

/-- `difflib.get_close_matches(word, possibilities, n, cutoff)`. -/
def getCloseMatches (word : String) (possibilities : List String)
    (n : Nat) (cutoff : ℚ) : List String :=
  let result := possibilities.filterMap (fun x =>
    let r := seqRatio x.data word.data
    if r ≥ cutoff then some (r, x) else none)
  ((stableSort pairDescLe result).take n).map Prod.snd

/-! ### `IrrigationGuide.find_best_match` and `get_suggestions` -/

/-- First loop of `find_best_match`: per resource (in `ResourceType` then dict
order), an exact lowercased-name match, then an exact keyword match. -/
def fbmLoop1 (q : String) :
    List (ResourceType × List (String × ResourceData)) → Option (String × ResourceType)
  | [] => none
  | (rt, entries) :: rest =>
    match entries.findSome? (fun nd =>
        if q = pyLower nd.1 then some (nd.1, rt)
        else if nd.2.keywords.any (fun kw => q = pyLower kw) then some (nd.1, rt)
        else none) with
    | some r => some r
    | none => fbmLoop1 q rest

/-- Second loop of `find_best_match`: per resource, any keyword appearing as a
substring of the query, then ≥ 2 words shared with the description. -/
def fbmLoop2 (q : String) :
    List (ResourceType × List (String × ResourceData)) → Option (String × ResourceType)
  | [] => none
  | (rt, entries) :: rest =>
    match entries.findSome? (fun nd =>
        if nd.2.keywords.any (fun kw => pyIn kw q) then some (nd.1, rt)
        else if interCount (pyWords (pyLower nd.2.description)) (pyWords q) ≥ 2 then
          some (nd.1, rt)
        else none) with
    | some r => some r
    | none => fbmLoop2 q rest

/-- `all_names`: every resource name, in `ResourceType` then dict order. -/
def allNames : List String :=
  resources.flatMap (fun te => te.2.map Prod.fst)

/-- The fuzzy fallback of `find_best_match`: the up-to-3 close matches, then
for each match in order the first resource type whose dict contains it. -/
def fuzzyFallback (q : String) : Option (String × ResourceType) :=
  let closeMs := getCloseMatches q allNames 3 (1/2)
  closeMs.findSome? (fun m =>
    ResourceType.all.findSome? (fun rt =>
      match resources.lookup rt with
      | some entries =>
        if entries.any (fun nd => nd.1 = m) then some (m, rt) else none
      | none => none))

/-- `IrrigationGuide.find_best_match(query)`.  The `user_id` parameter only
feeds `get_conversation_context`, whose result is never used, so it is
dropped here. -/
def findBestMatch (query : String) : Option (String × ResourceType) :=
  let q := pyStrip (pyLower query)
  match fbmLoop1 q resources with
  | some r => some r
  | none =>
    match fbmLoop2 q resources with
    | some r => some r
    | none => fuzzyFallback q

/-- A suggestion entry built by `get_suggestions`. -/
structure Suggestion where
  name : String
  score : ℚ
  icon : String
  rtype : String
  category : String
  description : String
  url : Option String := none
deriving DecidableEq

/-- The relevance score of one resource in `get_suggestions`:
`3·|query∩name| + 2·|query∩keywords| + (substring pairs) + 0.5·|query∩description| + 0.1·importance`. -/
def suggestionScore (queryWords : List String) (name : String) (d : ResourceData) : ℚ :=
  let nameWords := (pyWords (pyLower name)).dedup
  let keywordWords := (d.keywords.map pyLower).dedup
  let descriptionWords := (pyWords (pyLower d.description)).dedup
  let partialPairs := (queryWords.map (fun qw =>
    (keywordWords.filter (fun kw => pyIn qw kw || pyIn kw qw)).length)).sum
  3 * (interCount queryWords nameWords : ℚ)
    + 2 * (interCount queryWords keywordWords : ℚ)
    + (partialPairs : ℚ)
    + (interCount queryWords descriptionWords : ℚ) * (5/10)
    + (d.importance.getD 5 : ℚ) * (1/10)

/-- The truncated description shown in a suggestion
(`description[:100] + "..."` when longer than 100 characters). -/
def truncDescription (s : String) : String :=
  if s.data.length > 100 then String.mk (s.data.take 100) ++ "..." else s

/-- The candidate list of `get_suggestions` before sorting: all non-`CHAT`
resources with positive score, in iteration order. -/
def suggestionCandidates (queryWords : List String) : List Suggestion :=
  resources.flatMap (fun te =>
    if te.1 = ResourceType.chat then []
    else te.2.filterMap (fun nd =>
      let score := suggestionScore queryWords nd.1 nd.2
      if score > 0 then
        some { name := nd.1, score := score, icon := nd.2.icon
               rtype := te.1.value, category := (nd.2.category.getD "")
               description := truncDescription nd.2.description
               url := if te.1 = ResourceType.route then some (nd.2.url.getD "/") else none }
      else none))

/-- The diversity pass of `get_suggestions`: fill the result, skipping a
candidate whose category was already used until 3 distinct categories are in. -/
def diversityLoop (limit : Nat) :
    List Suggestion → List Suggestion → List String → List Suggestion
  | [], acc, _ => acc.reverse
  | s :: rest, acc, used =>
    if acc.length ≥ limit then acc.reverse
    else if !used.contains s.category || used.length ≥ 3 then
      diversityLoop limit rest (s :: acc)
        (if used.contains s.category then used else used ++ [s.category])
    else diversityLoop limit rest acc used

/-- `IrrigationGuide.get_suggestions(query, limit)`: score, sort descending by
score (Python sorts stably; `stableSort` reproduces any stable sort), then
apply the diversity pass and `[:limit]`. -/
def getSuggestions (query : String) (limit : Nat) : List Suggestion :=
  let queryWords := (pyWords (pyLower query)).dedup
  let sorted := stableSort (fun a b => decide (b.score ≤ a.score))
    (suggestionCandidates queryWords)
  (diversityLoop limit sorted [] []).take limit

/-! ### Response assembly (`get_help_response` and its helpers)

A response is a Python dict whose shape depends on the branch taken; it is
modelled as one flat structure of optional fields, a field `none` standing
for an absent key (and, for `corrected_query`, also for the present key with
value `None`). -/

/-- The `spelling_correction` sub-dict. -/
structure SpellingCorrectionMeta where
  originalQuery : String
  correctedQuery : String
  corrections : List String
deriving DecidableEq

/-- The `response["resource"]` sub-dict. -/
structure ResourceInfo where
  name : String
  description : String
  icon : String
  navigationInstructions : String
  url : Option String := none
  category : Option String := none
  importance : Option Nat := none
  examples : Option (List String) := none
  safetyWarning : Option String := none
  safetyNote : Option String := none
deriving DecidableEq

/-- One entry of a response's `suggestions` list: a plain string (JSON-intent
and fallback suggestions), a `{"name": .., "type": "suggestion"}` dict (chat
responses), or a scored dict (`get_suggestions`). -/
inductive SuggestionItem where
  | plain (s : String)
  | chatItem (name : String)
  | scored (s : Suggestion)
deriving DecidableEq

/-- A `get_help_response` result dict. -/
structure HelpResponse where
  matched : Bool
  rtype : Option String := none
  query : Option String := none
  correctedQuery : Option String := none
  responseText : Option String := none
  message : Option String := none
  intentTag : Option String := none
  category : Option String := none
  confidence : Option ℚ := none
  responseType : Option String := none
  suggestions : Option (List SuggestionItem) := none
  resource : Option ResourceInfo := none
  spellingCorrection : Option SpellingCorrectionMeta := none
  actions : Option (List ChatAction) := none
  quickActions : Option (List ChatAction) := none
  title : Option String := none
  description : Option String := none
  navigationInstructions : Option String := none
  methods : Option (List ContactMethodOut) := none
  socialMedia : Option (List SocialMediaOut) := none
  contactQuickActions : Option (List ContactQuickAction) := none
  contacts : Option (List EmergencyContactOut) := none
  contactInfo : Option ContactPayload := none
  emergencyInfo : Option EmergencyPayload := none
deriving DecidableEq

/-- `IrrigationGuide._format_chat_response(response_key)` (every key passed by
the callers exists, so the `except` branch is unreachable; chat data has no
`categories` key, so that copy never fires). -/
def formatChatResponse (responseKey : String) : HelpResponse :=
  let chatData := ((loadChatResponses.lookup responseKey).getD {})
  { matched := true, rtype := some "chat", responseText := some chatData.response
    responseType := some "chat"
    suggestions := chatData.suggestions.map (fun l => l.map SuggestionItem.chatItem)
    actions := chatData.actions
    quickActions := chatData.quickActions }

/-- `IrrigationGuide._check_special_commands(query)`. -/
def checkSpecialCommands (query : String) : Option HelpResponse :=
  let ql := pyLower query
  if ["clear chat", "delete history", "reset conversation"].any (fun c => pyIn c ql) then
    some (formatChatResponse "clear_chat_confirmation")
  else if ["settings", "preferences", "options"].any (fun c => pyIn c ql) then
    some (formatChatResponse "settings_info")
  else if ["emergency", "urgent", "help now"].any (fun c => pyIn c ql) then
    some (formatChatResponse "emergency_info")
  else none

/-- `IrrigationGuide._check_conversational_phrases(query)`. -/
def checkConversationalPhrases (query : String) : Option HelpResponse :=
  let ql := pyLower query
  if ["hello", "hi", "hey", "greetings", "good morning", "good afternoon"].any
      (fun w => pyIn w ql) then
    some (formatChatResponse "greeting")
  else if ["thank", "thanks", "appreciate", "grateful"].any (fun w => pyIn w ql) then
    some (formatChatResponse "thanks")
  else if ["bye", "goodbye", "see you", "farewell"].any (fun w => pyIn w ql) then
    some (formatChatResponse "goodbye")
  else none

/-- `get_contact_response()` as a `HelpResponse` (the payload dict is the
response). -/
def contactPayloadResponse (p : ContactPayload) : HelpResponse :=
  { matched := p.matched, rtype := some p.ptype, title := some p.title
    description := some p.description, methods := some p.methods
    socialMedia := some p.socialMedia, contactQuickActions := some p.quickActions
    navigationInstructions := some p.navigationInstructions }

/-- `get_emergency_contact_info()` as a `HelpResponse`. -/
def emergencyPayloadResponse (p : EmergencyPayload) : HelpResponse :=
  { matched := p.matched, rtype := some p.ptype, title := some p.title
    description := some p.description, contacts := some p.contacts
    quickActions := some p.quickActions
    navigationInstructions := some p.navigationInstructions }

/-- `IrrigationGuide._enhance_with_contact_intelligence(query, response)`. -/
def enhanceWithContactIntelligence (query : String) (r : HelpResponse) : HelpResponse :=
  let ql := pyLower query
  let contactKeywords := ["contact", "support", "help", "call", "email", "phone",
    "number", "address", "location", "talk to", "speak with",
    "emergency", "urgent", "problem", "issue", "broken"]
  if contactKeywords.any (fun kw => pyIn kw ql) then
    let r := if r.contactInfo.isNone then { r with contactInfo := some getContactResponse }
      else r
    if ["emergency", "urgent", "critical", "broken", "not working"].any
        (fun w => pyIn w ql) then
      { r with emergencyInfo := some getEmergencyContactInfo }
    else r
  else r

/-! ### Conversation history

`IrrigationGuide.__init__` sets `self.conversation_history = []` — a Python
*list* — while `add_to_conversation_history` treats it as a dict keyed by
`user_id`.  On a list, `user_id not in history` is element membership (a
string never equals an interaction dict), and `history[user_id]` with a
string index raises `TypeError` on both branches, before any mutation.  The
list therefore stays empty forever. -/

inductive PyExn where
  | typeError
deriving DecidableEq

/-- An interaction dict (the `datetime.now()` timestamp is opaque). -/
structure Interaction where
  timestamp : String
  query : String
  response : String
deriving DecidableEq

/-- The `self.conversation_history` list. -/
abbrev ConvHistory := List Interaction

/-- `IrrigationGuide.add_to_conversation_history(user_id, query, response)`:
both the `history[user_id] = []` initialisation (when the string `user_id` is
not an element of the list) and the `history[user_id].append(...)` access
index a list with a string and raise `TypeError`. -/
def addToConversationHistory (hist : ConvHistory) (_userId _query _response : String) :
    Except PyExn ConvHistory :=
  let isMember := (hist : List Interaction).any (fun _ => false)
  if isMember then Except.error PyExn.typeError
  else Except.error PyExn.typeError

/-- Python truthiness of the optional `user_id` argument. -/
def pyTruthy : Option String → Bool
  | none => false
  | some s => !s.isEmpty

/-- The generic error payload of `get_help_response`'s blanket handler. -/
def genericErrorResponse : HelpResponse :=
  { matched := false
    message := some "I encountered an error processing your request. Please try again or contact support if the issue persists."
    suggestions := some [], responseType := some "error" }

/-- The spelling metadata attached when the corrected query differs. -/
def spellingMeta (query corrected : String) (corrections : List String) :
    SpellingCorrectionMeta :=
  { originalQuery := query, correctedQuery := corrected, corrections := corrections }

/-- The `if has_spelling_issues: response[\x27spelling_correction\x27] = {...}`
snippet repeated in `get_help_response`. -/
def withSpelling (hasIssues : Bool) (query corrected : String)
    (corrections : List String) (r : HelpResponse) : HelpResponse :=
  if hasIssues then
    { r with spellingCorrection := some (spellingMeta query corrected corrections) }
  else r

/-- The body of `get_help_response` inside its `try`: each
`add_to_conversation_history` call can raise.  `pick` models `random.choice`
inside the JSON loader. -/
def getHelpResponseBody (pick : List String → String) (intents : IntentSet)
    (hist : ConvHistory) (query : String) (userId : Option String) :
    Except PyExn (HelpResponse × ConvHistory) := do
  let hist ← (if pyTruthy userId then
    addToConversationHistory hist (userId.getD "") query "Processing..."
    else pure hist)
  let jsonResponse := getResponse pick intents query
  if jsonResponse.matched && decide (jsonResponse.confidence ≥ 6/10) then
    let hist ← (if pyTruthy userId then
      addToConversationHistory hist (userId.getD "") query jsonResponse.responseText
      else pure hist)
    return ({ matched := true, rtype := some "json_intent", query := some query
              responseText := some jsonResponse.responseText
              intentTag := jsonResponse.intentTag, category := jsonResponse.category
              confidence := some jsonResponse.confidence
              responseType := some "success"
              suggestions := some (jsonResponse.suggestions.map SuggestionItem.plain) },
            hist)
  match checkSpecialCommands query with
  | some specialResponse =>
    let hist ← (if pyTruthy userId then
      addToConversationHistory hist (userId.getD "") query
        ((specialResponse.responseText).getD "Special command executed")
      else pure hist)
    return (specialResponse, hist)
  | none =>
  let corrected := correctSpelling query
  let correctedQuery := corrected.1
  let corrections := corrected.2
  let hasSpellingIssues := pyLower correctedQuery ≠ pyLower query
  match checkConversationalPhrases correctedQuery with
  | some conversationalResponse =>
    let hist ← (if pyTruthy userId then
      addToConversationHistory hist (userId.getD "") query
        ((conversationalResponse.responseText).getD "")
      else pure hist)
    return (conversationalResponse, hist)
  | none =>
  if ["contact", "support", "help", "call", "email", "phone", "emergency"].any
      (fun kw => pyIn kw (pyLower correctedQuery)) then
    let response := if pyIn "emergency" (pyLower correctedQuery) then
        emergencyPayloadResponse getEmergencyContactInfo
      else contactPayloadResponse getContactResponse
    let hist ← (if pyTruthy userId then
      addToConversationHistory hist (userId.getD "") query "Provided contact information"
      else pure hist)
    let response := withSpelling hasSpellingIssues query correctedQuery corrections response
    return (response, hist)
  else
  match findBestMatch correctedQuery with
  | none =>
    let response : HelpResponse :=
      { matched := false
        message := some "I couldn\'t find an exact match for your query. Try being more specific or ask about:"
        suggestions := some ((getSuggestions correctedQuery 5).map SuggestionItem.scored)
        responseType := some "error" }
    let response := withSpelling hasSpellingIssues query correctedQuery corrections response
    return (response, hist)
  | some (resourceName, resourceType) =>
    let resourceData := (((resources.lookup resourceType).getD []).lookup resourceName).getD {}
    let base : ResourceInfo :=
      { name := resourceName, description := resourceData.description
        icon := if resourceData.icon = "" then "fa-question-circle" else resourceData.icon
        navigationInstructions := resourceData.navigationInstructions }
    let base := if resourceType = ResourceType.route then
        { base with url := some (resourceData.url.getD "/")
                    category := some (resourceData.category.getD "")
                    importance := some (resourceData.importance.getD 5) }
      else if resourceType = ResourceType.command then
        { base with examples := some resourceData.examples
                    safetyWarning := resourceData.safetyWarning
                    safetyNote := resourceData.safetyNote }
      else base
    let response : HelpResponse :=
      { matched := true, rtype := some resourceType.value, query := some query
        correctedQuery := if hasSpellingIssues then some correctedQuery else none
        resource := some base
        suggestions := some ((getSuggestions correctedQuery 5).map SuggestionItem.scored)
        responseType := some "success" }
    let response := withSpelling hasSpellingIssues query correctedQuery corrections response
    let response := enhanceWithContactIntelligence correctedQuery response
    let hist ← (if pyTruthy userId then
      addToConversationHistory hist (userId.getD "") query
        ("Found resource: " ++ resourceName)
      else pure hist)
    return (response, hist)

/-- `IrrigationGuide.get_help_response(query, user_id)`: the `try/except` at
the top level.  The only state mutation inside the body is
`add_to_conversation_history`, which raises before mutating, so on the error
path the history is returned unchanged — exactly the Python behaviour. -/
def getHelpResponse (pick : List String → String) (intents : IntentSet)
    (hist : ConvHistory) (query : String) (userId : Option String) :
    HelpResponse × ConvHistory :=
  match getHelpResponseBody pick intents hist query userId with
  | Except.ok r => r
  | Except.error _ => (genericErrorResponse, hist)

/-! ### Claim theorems: concrete evaluations -/

/-- A concrete stand-in for `random.choice` used in closed evaluations (the
evaluated paths never consult it: no JSON intent matches an empty intent set). -/
def pickHead : List String → String := fun l => l.headD ""

set_option maxRecDepth 8000

/-- C1, counterexample: for the query `"pump"` the suggestion list produced by
`IrrigationGuide.get_suggestions` contains an entry whose score exceeds 1 (the
`pump` command resource scores 10), so suggestion scores are not confined to
`[0.0, 1.0]` as the claim states. -/
theorem getSuggestions_pump_score_exceeds_one :
    ((getSuggestions "pump" 5).any fun s => decide (1 < s.score)) = true := by
  with_unfolding_all decide

/-- C2, evaluation at the failing input: calling the resolver entry point with
user identifier `"u1"` does not append anything to the conversation history —
`add_to_conversation_history` raises `TypeError` (the history is a list, not a
dict), the blanket handler returns the generic error payload, and the history
is unchanged. -/
theorem getHelpResponse_user_history_never_appends :
    getHelpResponse pickHead [] [] "turn on the pump" (some "u1")
      = (genericErrorResponse, []) := by
  with_unfolding_all rfl

/-- Helper: every call to `add_to_conversation_history` raises `TypeError`. -/
theorem addToConversationHistory_raises (hist : ConvHistory) (u q r : String) :
    addToConversationHistory hist u q r = Except.error PyExn.typeError := by
  simp only [addToConversationHistory]
  split <;> rfl

/-- C4, evaluation at the failing input: the very first append (and every
later one) raises `TypeError` instead of storing a bounded history entry, so
no per-user history is ever kept, let alone truncated to 20 entries. -/
theorem addToConversationHistory_never_stores :
    addToConversationHistory [] "u1" "hi" "Processing..."
      = Except.error PyExn.typeError :=
  addToConversationHistory_raises [] "u1" "hi" "Processing..."

/-- C7, counterexample: spelling normalization is not idempotent.  The
misspelling map sends `"manualy"` to `"manually"`, which is itself not in the
irrigation vocabulary, so a second pass corrects it again to `"manual"` with a
non-empty correction list. -/
theorem correctSpelling_not_idempotent :
    correctSpelling "manualy" = ("manually", [correctionNote "manualy" "manually"])
    ∧ correctSpelling "manually" = ("manual", [correctionNote "manually" "manual"])
    ∧ correctSpelling (correctSpelling "manualy").1
        ≠ ((correctSpelling "manualy").1, ([] : List String)) := by
  with_unfolding_all decide

/-- Component evaluation: the `"hello"` response is the contact payload. -/
theorem hello_eval_rtype :
    (getHelpResponse pickHead [] [] "hello" none).1.rtype = some "contact" := by
  with_unfolding_all decide

/-- Component evaluation: the `"hello"` response is a match. -/
theorem hello_eval_matched :
    (getHelpResponse pickHead [] [] "hello" none).1.matched = true := by
  with_unfolding_all decide

/-- Component evaluation: the spelling corrector rewrites `"hello"` to
`"help"`. -/
theorem hello_eval_spelling :
    correctSpelling "hello" = ("help", [correctionNote "hello" "help"]) := by
  with_unfolding_all decide

/-- Component evaluation: the conversational-phrase stage does not fire on the
corrected query `"help"` (no greeting word is a substring of it). -/
theorem hello_eval_no_greeting :
    checkConversationalPhrases "help" = none := by
  with_unfolding_all decide

/-- Component evaluation: the `"hello"` response has no `response` text key
(the greeting payload would have one). -/
theorem hello_eval_no_responseText :
    (getHelpResponse pickHead [] [] "hello" none).1.responseText = none := by
  with_unfolding_all decide

/-- Component evaluation: the `"hello"` call leaves the history empty. -/
theorem hello_eval_history :
    (getHelpResponse pickHead [] [] "hello" none).2 = ([] : ConvHistory) := by
  with_unfolding_all decide

/-- C9, evaluation at the failing input `"hello"` (no structured intents
loaded, no user identifier): the spelling corrector rewrites `"hello"` to
`"help"`, the conversational-phrase stage therefore never fires, and the
contact-keyword stage returns the contact payload — not the greeting payload
the claim (and the greeting trigger list itself) expects.  The history stays
empty and resource resolution is never reached. -/
theorem hello_query_returns_contact_payload :
    (getHelpResponse pickHead [] [] "hello" none).1.rtype = some "contact"
    ∧ (getHelpResponse pickHead [] [] "hello" none).1.matched = true
    ∧ (getHelpResponse pickHead [] [] "hello" none).1.responseText = none
    ∧ (getHelpResponse pickHead [] [] "hello" none).2 = ([] : ConvHistory)
    ∧ correctSpelling "hello" = ("help", [correctionNote "hello" "help"])
    ∧ checkConversationalPhrases "help" = none :=
  ⟨hello_eval_rtype, hello_eval_matched, hello_eval_no_responseText,
   hello_eval_history, hello_eval_spelling, hello_eval_no_greeting⟩

/-- Component evaluation: the pump query resolves to a `route` response. -/
theorem pump_query_eval_rtype :
    (getHelpResponse pickHead [] [] "how do i turn on the pump" none).1.rtype
      = some "route" := by
  with_unfolding_all decide

/-- Component evaluation: the pump query resolves to the `control panel`
resource. -/
theorem pump_query_eval_resource_name :
    (getHelpResponse pickHead [] [] "how do i turn on the pump" none).1.resource.map
      ResourceInfo.name = some "control panel" := by
  with_unfolding_all decide

/-- Component evaluation: the pump query response has no usage examples (only
`command` resources get them). -/
theorem pump_query_eval_no_examples :
    (getHelpResponse pickHead [] [] "how do i turn on the pump" none).1.resource.map
      ResourceInfo.examples = some none := by
  with_unfolding_all decide

/-- Component evaluation: the spelling corrector mangles the pump query. -/
theorem pump_query_eval_spelling :
    correctSpelling "how do i turn on the pump"
      = ("show do fix turn zone the pump",
         [correctionNote "how" "show", correctionNote "i" "fix",
          correctionNote "on" "zone"]) := by
  with_unfolding_all decide

/-- Component evaluation: the exact pass finds nothing for the corrected pump
query. -/
theorem pump_query_eval_loop1 :
    fbmLoop1 "show do fix turn zone the pump" resources = none := by
  with_unfolding_all decide

/-- Component evaluation: the substring pass matches `control panel` for the
corrected pump query. -/
theorem pump_query_eval_loop2 :
    fbmLoop2 "show do fix turn zone the pump" resources
      = some ("control panel", ResourceType.route) := by
  with_unfolding_all decide

/-- C10, counterexample: the query `"how do i turn on the pump"` does not
resolve to the `pump` command resource: the returned response has type
`route`, not `command`, and its resource is `control panel`, not `pump`. -/
theorem pump_query_does_not_match_pump_command :
    (getHelpResponse pickHead [] [] "how do i turn on the pump" none).1.rtype
      = some "route"
    ∧ (getHelpResponse pickHead [] [] "how do i turn on the pump" none).1.resource.map
        ResourceInfo.name ≠ some "pump" := by
  refine ⟨pump_query_eval_rtype, ?_⟩
  rw [pump_query_eval_resource_name]
  intro h
  simp at h

/-- C10, amended: the spelling corrector first rewrites the query to
`"show do fix turn zone the pump"`; the exact-match pass finds nothing; the
substring pass then matches the `control panel` route resource (its keyword
`"pump"` is a substring of the corrected query) before ever reaching the
`pump` command, and the returned route payload carries no usage examples. -/
theorem pump_query_matches_control_panel :
    correctSpelling "how do i turn on the pump"
      = ("show do fix turn zone the pump",
         [correctionNote "how" "show", correctionNote "i" "fix",
          correctionNote "on" "zone"])
    ∧ fbmLoop1 "show do fix turn zone the pump" resources = none
    ∧ fbmLoop2 "show do fix turn zone the pump" resources
        = some ("control panel", ResourceType.route)
    ∧ (getHelpResponse pickHead [] [] "how do i turn on the pump" none).1.resource.map
        ResourceInfo.name = some "control panel"
    ∧ (getHelpResponse pickHead [] [] "how do i turn on the pump" none).1.resource.map
        ResourceInfo.examples = some none :=
  ⟨pump_query_eval_spelling, pump_query_eval_loop1, pump_query_eval_loop2,
   pump_query_eval_resource_name, pump_query_eval_no_examples⟩

/-! ### C1: confidence bounds of `get_response` -/

/-- The score assigned inside the pattern loop for one non-exact pattern is
at most 1 (containment scores 0.8; the word-overlap ratio is at most 0.6). -/
theorem patternStep_le_one (query pl : String) :
    (if pyIn pl query || pyIn query pl then (8/10 : ℚ)
     else
       let qw := (pyWords query).dedup
       let pw := (pyWords pl).dedup
       let common := qw.filter (fun w => pw.contains w)
       if common.length ≠ 0 then
         (common.length : ℚ) / (max qw.length pw.length : ℚ) * (6/10)
       else 0) ≤ 1 := by
  split
  · norm_num
  · simp only []
    split
    · rename_i hne
      set qw := (pyWords query).dedup with hqw
      set pw := (pyWords pl).dedup with hpw
      set common := qw.filter (fun w => pw.contains w) with hcommon
      have hlen : common.length ≤ qw.length := by
        rw [hcommon]; exact List.length_filter_le _ _
      have hmax : common.length ≤ max qw.length pw.length :=
        le_trans hlen (le_max_left _ _)
      have hpos : 0 < max qw.length pw.length := by
        rcases Nat.eq_zero_or_pos common.length with h0 | hp
        · exact absurd h0 hne
        · omega
      have hdiv : (common.length : ℚ) / (max qw.length pw.length : ℚ) ≤ 1 := by
        rw [div_le_one (by exact_mod_cast hpos)]
        exact_mod_cast hmax
      have hdivnn : (0 : ℚ) ≤ (common.length : ℚ) / (max qw.length pw.length : ℚ) :=
        div_nonneg (by positivity) (by positivity)
      nlinarith
    · norm_num

/-- The score assigned inside the pattern loop is nonnegative. -/
theorem patternStep_nonneg (query pl : String) :
    (0 : ℚ) ≤
    (if pyIn pl query || pyIn query pl then (8/10 : ℚ)
     else
       let qw := (pyWords query).dedup
       let pw := (pyWords pl).dedup
       let common := qw.filter (fun w => pw.contains w)
       if common.length ≠ 0 then
         (common.length : ℚ) / (max qw.length pw.length : ℚ) * (6/10)
       else 0) := by
  split
  · norm_num
  · simp only []
    split
    · positivity
    · norm_num

/-- The running maximum of the pattern loop stays at most 1. -/
theorem patternLoop_le_one (query : String) (ps : List String) (m : ℚ) (hm : m ≤ 1) :
    patternLoop query ps m ≤ 1 := by
  induction ps generalizing m with
  | nil => simpa [patternLoop] using hm
  | cons p rest ih =>
    rw [patternLoop]
    split
    · exact le_refl 1
    · exact ih _ (max_le hm (patternStep_le_one query (pyLower p)))

/-- The running maximum of the pattern loop stays nonnegative. -/
theorem patternLoop_nonneg (query : String) (ps : List String) (m : ℚ) (hm : 0 ≤ m) :
    0 ≤ patternLoop query ps m := by
  induction ps generalizing m with
  | nil => simpa [patternLoop] using hm
  | cons p rest ih =>
    rw [patternLoop]
    split
    · norm_num
    · exact ih _ (le_trans hm (le_max_left _ _))

/-- `_calculate_match_score` always lands in `[0, 1]`. -/
theorem calcMatchScore_mem_unit (query : String) (i : Intent) :
    0 ≤ calcMatchScore query i ∧ calcMatchScore query i ≤ 1 :=
  ⟨patternLoop_nonneg query i.patterns 0 le_rfl,
   patternLoop_le_one query i.patterns 0 (by norm_num)⟩

/-- The intent loop keeps `best_score` in `[0, 1]`. -/
theorem intentLoop_bestScore_mem_unit (q : String) (θ : ℚ) (cat : String)
    (is : List Intent) (st : FindState)
    (hst : 0 ≤ st.bestScore ∧ st.bestScore ≤ 1) :
    0 ≤ (intentLoop q θ cat is st).bestScore
      ∧ (intentLoop q θ cat is st).bestScore ≤ 1 := by
  induction is generalizing st with
  | nil => simpa [intentLoop] using hst
  | cons i rest ih =>
    rw [intentLoop]
    split
    · exact ih _ (calcMatchScore_mem_unit q i)
    · exact ih _ hst

/-- The category loop keeps `best_score` in `[0, 1]`. -/
theorem catLoop_bestScore_mem_unit (q : String) (θ : ℚ)
    (cats : List (String × List Intent)) (st : FindState)
    (hst : 0 ≤ st.bestScore ∧ st.bestScore ≤ 1) :
    0 ≤ (catLoop q θ cats st).bestScore ∧ (catLoop q θ cats st).bestScore ≤ 1 := by
  induction cats generalizing st with
  | nil => simpa [catLoop] using hst
  | cons c rest ih =>
    rw [catLoop]
    exact ih _ (intentLoop_bestScore_mem_unit q θ c.1 c.2 st hst)

/-- C1, amended: the `MatchResult` confidence produced by intent matching
(`JSONIntentLoader.get_response`) always lies in `[0.0, 1.0]` for every
query, every loaded intent set and every random response choice (the
suggestion scores of `IrrigationGuide.get_suggestions`, by contrast, are not
confined to `[0, 1]` — see the counterexample). -/
theorem getResponse_confidence_mem_unit (pick : List String → String)
    (intents : IntentSet) (query : String) :
    0 ≤ (getResponse pick intents query).confidence
      ∧ (getResponse pick intents query).confidence ≤ 1 := by
  have hbest := catLoop_bestScore_mem_unit (pyStrip (pyLower query)) (6/10) intents
    ⟨none, none, 0⟩ (by norm_num)
  rw [getResponse]
  split
  · split
    · simpa [findMatchingIntent] using hbest
    · simp [jsonNoMatch]
  · simp [jsonNoMatch]

/-! ### C5/C6: specification-side scoring and the loop characterization -/

/-- The per-pattern score exactly as the spec words it: 1.0 on exact
case-insensitive equality, else 0.8 on containment either way, else
`|common words| / max(|query words|, |pattern words|) * 0.6`. -/
def specPatternScore (query pattern : String) : ℚ :=
  let pl := pyLower pattern
  if query = pl then 1
  else if pyIn pl query || pyIn query pl then 8/10
  else
    let qw := (pyWords query).dedup
    let pw := (pyWords pl).dedup
    let common := qw.filter (fun w => pw.contains w)
    if common.length ≠ 0 then
      (common.length : ℚ) / (max qw.length pw.length : ℚ) * (6/10)
    else 0

/-- Maximum of a list of scores, 0 for the empty list. -/
def maxScoreList (l : List ℚ) : ℚ := l.foldr max 0

/-- The spec's intent score: the maximum of its per-pattern scores. -/
def specIntentScore (query : String) (i : Intent) : ℚ :=
  maxScoreList (i.patterns.map (specPatternScore query))

/-- The `(category, intent)` pairs in the exact order the nested loops of
`find_matching_intent` visit them. -/
def flatIntents (intents : IntentSet) : List (String × Intent) :=
  intents.flatMap (fun ci => ci.2.map (fun i => (ci.1, i)))

/-- The globally highest intent score for a (normalized) query. -/
def bestIntentScore (intents : IntentSet) (q : String) : ℚ :=
  maxScoreList ((flatIntents intents).map (fun ci => calcMatchScore q ci.2))

/-- The first intent (in iteration order) attaining the global best score. -/
def firstBestIntent (intents : IntentSet) (q : String) : Option (String × Intent) :=
  (flatIntents intents).find?
    (fun ci => decide (calcMatchScore q ci.2 = bestIntentScore intents q))

/-- The two nested loops of `find_matching_intent`, written as one loop over
the flattened pair list. -/
def pairLoop (q : String) (θ : ℚ) : List (String × Intent) → FindState → FindState
  | [], st => st
  | ci :: rest, st =>
    let score := calcMatchScore q ci.2
    let st' := if score > st.bestScore ∧ score ≥ θ then
        ⟨some ci.2, some ci.1, score⟩ else st
    pairLoop q θ rest st'

theorem maxScoreList_nonneg (l : List ℚ) : 0 ≤ maxScoreList l := by
  induction l with
  | nil => simp [maxScoreList]
  | cons x l ih => simpa [maxScoreList] using Or.inr ih

theorem maxScoreList_le {l : List ℚ} {c : ℚ} (hc : 0 ≤ c)
    (h : ∀ x ∈ l, x ≤ c) : maxScoreList l ≤ c := by
  induction l with
  | nil => simpa [maxScoreList] using hc
  | cons x l ih =>
    simp only [maxScoreList, List.foldr_cons] at *
    exact max_le (h x (by simp)) (ih fun y hy => h y (by simp [hy]))

theorem le_maxScoreList {l : List ℚ} {x : ℚ} (h : x ∈ l) : x ≤ maxScoreList l := by
  induction l with
  | nil => cases h
  | cons y l ih =>
    simp only [maxScoreList, List.foldr_cons]
    rcases List.mem_cons.1 h with rfl | h
    · exact le_max_left _ _
    · exact le_trans (ih h) (le_max_right _ _)

theorem maxScoreList_attained {l : List ℚ} (h : maxScoreList l ≠ 0) :
    maxScoreList l ∈ l := by
  induction l with
  | nil => simp [maxScoreList] at h
  | cons x l ih =>
    simp only [maxScoreList, List.foldr_cons] at h ⊢
    rcases le_total (List.foldr max 0 l) x with hle | hle
    · simp [max_eq_left hle]
    · rw [max_eq_right hle] at h ⊢
      exact List.mem_cons_of_mem _ (ih h)

/-- The spec's per-pattern score is at most 1. -/
theorem specPatternScore_le_one (query p : String) : specPatternScore query p ≤ 1 := by
  rw [specPatternScore]
  split
  · exact le_refl 1
  · exact patternStep_le_one query (pyLower p)

/-- The spec's per-pattern score is nonnegative. -/
theorem specPatternScore_nonneg (query p : String) : 0 ≤ specPatternScore query p := by
  rw [specPatternScore]
  split
  · norm_num
  · exact patternStep_nonneg query (pyLower p)

/-- The pattern loop computes the maximum of the running value and the
per-pattern spec scores (the 1.0 early return is compatible because every
score is bounded by 1). -/
theorem patternLoop_eq_max (query : String) (ps : List String) (m : ℚ)
    (hm0 : 0 ≤ m) (hm1 : m ≤ 1) :
    patternLoop query ps m = max m (maxScoreList (ps.map (specPatternScore query))) := by
  induction ps generalizing m with
  | nil =>
    simp [patternLoop, maxScoreList, max_eq_left hm0]
  | cons p rest ih =>
    rw [patternLoop]
    split
    · rename_i hexact
      have h1 : specPatternScore query p = 1 := by rw [specPatternScore, if_pos hexact]
      have hrest : maxScoreList (rest.map (specPatternScore query)) ≤ 1 :=
        maxScoreList_le (by norm_num) (by
          intro x hx
          obtain ⟨pp, _, rfl⟩ := List.mem_map.1 hx
          exact specPatternScore_le_one query pp)
      have hrest0 : 0 ≤ maxScoreList (rest.map (specPatternScore query)) :=
        maxScoreList_nonneg _
      simp only [List.map_cons, maxScoreList, List.foldr_cons]
      rw [h1]
      have : max (1 : ℚ) (List.foldr max 0 (rest.map (specPatternScore query))) = 1 :=
        max_eq_left hrest
      rw [this, max_eq_right hm1]
    · rename_i hexact
      have hspec : specPatternScore query p
          = (if pyIn (pyLower p) query || pyIn query (pyLower p) then (8/10 : ℚ)
             else
               let qw := (pyWords query).dedup
               let pw := (pyWords (pyLower p)).dedup
               let common := qw.filter (fun w => pw.contains w)
               if common.length ≠ 0 then
                 (common.length : ℚ) / (max qw.length pw.length : ℚ) * (6/10)
               else 0) := by
        rw [specPatternScore, if_neg hexact]
      rw [← hspec]
      have hs0 := specPatternScore_nonneg query p
      have hs1 := specPatternScore_le_one query p
      rw [ih _ (le_trans hm0 (le_max_left _ _)) (max_le hm1 hs1)]
      simp only [List.map_cons, maxScoreList, List.foldr_cons]
      rw [max_assoc]

/-- C5's formula component: `_calculate_match_score` computes exactly the
spec's maximum-over-patterns score. -/
theorem calcMatchScore_eq_spec (query : String) (i : Intent) :
    calcMatchScore query i = specIntentScore query i := by
  rw [calcMatchScore, specIntentScore,
    patternLoop_eq_max query i.patterns 0 le_rfl (by norm_num)]
  exact max_eq_right (maxScoreList_nonneg _)

/-- An exact pattern match short-circuits the pattern loop to 1.0, whatever
the running value. -/
theorem patternLoop_exact (query : String) (ps : List String) (m : ℚ)
    (h : ∃ p ∈ ps, query = pyLower p) : patternLoop query ps m = 1 := by
  induction ps generalizing m with
  | nil => simp at h
  | cons p rest ih =>
    rw [patternLoop]
    obtain ⟨p', hp', hq⟩ := h
    rcases List.mem_cons.1 hp' with rfl | hmem
    · rw [if_pos hq]
    · split
      · rfl
      · exact ih _ ⟨p', hmem, hq⟩

/-- Shorthand for the maximum intent score over a pair list. -/
def pairMax (q : String) (l : List (String × Intent)) : ℚ :=
  maxScoreList (l.map (fun cj => calcMatchScore q cj.2))

/-- The state the loop reaches when some score beats the threshold: the first
pair attaining the maximum, with that maximum as best score. -/
def argmaxState (q : String) (l : List (String × Intent)) (st : FindState) : FindState :=
  ((l.find? (fun ci => decide (calcMatchScore q ci.2 = pairMax q l))).map
    (fun ci => (⟨some ci.2, some ci.1, pairMax q l⟩ : FindState))).getD st

theorem pairMax_cons (q : String) (ci : String × Intent) (rest : List (String × Intent)) :
    pairMax q (ci :: rest) = max (calcMatchScore q ci.2) (pairMax q rest) := by
  simp [pairMax, maxScoreList]

theorem pairLoop_cons (q : String) (θ : ℚ) (ci : String × Intent)
    (rest : List (String × Intent)) (st : FindState) :
    pairLoop q θ (ci :: rest) st =
      pairLoop q θ rest
        (if calcMatchScore q ci.2 > st.bestScore ∧ calcMatchScore q ci.2 ≥ θ then
          ⟨some ci.2, some ci.1, calcMatchScore q ci.2⟩ else st) := rfl

/-- Characterization of the strict-improvement argmax loop: it returns the
first pair attaining the overall maximum when that maximum beats both the
incoming best score and the (positive) threshold, and leaves the state
untouched otherwise. -/
theorem pairLoop_char (q : String) (θ : ℚ) (hθ : 0 < θ)
    (l : List (String × Intent)) (st : FindState) :
    pairLoop q θ l st =
      if st.bestScore < pairMax q l ∧ θ ≤ pairMax q l then argmaxState q l st
      else st := by
  induction l generalizing st with
  | nil =>
    rw [pairLoop, if_neg]
    rintro ⟨-, habs⟩
    simp only [pairMax, List.map_nil, maxScoreList, List.foldr_nil] at habs
    linarith
  | cons ci rest ih =>
    rw [pairLoop_cons]
    by_cases hup : calcMatchScore q ci.2 > st.bestScore ∧ calcMatchScore q ci.2 ≥ θ
    · rw [if_pos hup, ih]
      by_cases hgt : calcMatchScore q ci.2 < pairMax q rest
      · have hθMr : θ ≤ pairMax q rest := le_trans hup.2 (le_of_lt hgt)
        rw [if_pos (show (⟨some ci.2, some ci.1, calcMatchScore q ci.2⟩ :
            FindState).bestScore < pairMax q rest ∧ θ ≤ pairMax q rest from ⟨hgt, hθMr⟩)]
        have hMM : pairMax q (ci :: rest) = pairMax q rest := by
          rw [pairMax_cons]; exact max_eq_right (le_of_lt hgt)
        rw [if_pos ⟨by rw [hMM]; exact lt_trans hup.1 hgt, by rw [hMM]; exact hθMr⟩]
        have hMr0 : pairMax q rest ≠ 0 := (lt_of_lt_of_le hθ hθMr).ne.symm
        have hmem : pairMax q rest ∈ rest.map (fun cj => calcMatchScore q cj.2) :=
          maxScoreList_attained hMr0
        obtain ⟨c0, hc0mem, hc0⟩ := List.mem_map.1 hmem
        have hfind : (rest.find?
            (fun cj => decide (calcMatchScore q cj.2 = pairMax q rest))).isSome := by
          rw [List.find?_isSome]
          exact ⟨c0, hc0mem, by simp [hc0]⟩
        obtain ⟨cf, hcf⟩ := Option.isSome_iff_exists.1 hfind
        rw [argmaxState, argmaxState,
          List.find?_cons_of_neg _ (by simp only [decide_eq_true_eq]; rw [hMM]; exact ne_of_lt hgt),
          hMM, hcf]
        simp
      · push_neg at hgt
        rw [if_neg (by rintro ⟨habs, -⟩; exact absurd hgt (not_le.2 habs))]
        have hMM : pairMax q (ci :: rest) = calcMatchScore q ci.2 := by
          rw [pairMax_cons]; exact max_eq_left hgt
        rw [if_pos ⟨by rw [hMM]; exact hup.1, by rw [hMM]; exact hup.2⟩]
        rw [argmaxState, List.find?_cons_of_pos _ (by simp [hMM])]
        simp [hMM]
    · rw [if_neg hup, ih]
      rw [not_and_or, not_lt, not_le] at hup
      by_cases hc : st.bestScore < pairMax q rest ∧ θ ≤ pairMax q rest
      · rw [if_pos hc]
        have hsxlt : calcMatchScore q ci.2 < pairMax q rest := by
          rcases hup with h1 | h1
          · exact lt_of_le_of_lt h1 hc.1
          · exact lt_of_lt_of_le h1 hc.2
        have hMM : pairMax q (ci :: rest) = pairMax q rest := by
          rw [pairMax_cons]; exact max_eq_right (le_of_lt hsxlt)
        rw [if_pos ⟨by rw [hMM]; exact hc.1, by rw [hMM]; exact hc.2⟩]
        rw [argmaxState, argmaxState,
          List.find?_cons_of_neg _ (by simp only [decide_eq_true_eq]; rw [hMM]; exact ne_of_lt hsxlt),
          hMM]
      · rw [if_neg hc, if_neg]
        rintro ⟨habs1, habs2⟩
        rw [pairMax_cons] at habs1 habs2
        rcases max_cases (calcMatchScore q ci.2) (pairMax q rest) with ⟨hmx, hge⟩ | ⟨hmx, hlt⟩
        · rw [hmx] at habs1 habs2
          rcases hup with h1 | h1
          · exact absurd habs1 (not_lt.2 h1)
          · exact absurd habs2 (not_le.2 h1)
        · rw [hmx] at habs1 habs2
          exact hc ⟨habs1, habs2⟩

theorem intentLoop_cons (q : String) (θ : ℚ) (cat : String) (i : Intent)
    (rest : List Intent) (st : FindState) :
    intentLoop q θ cat (i :: rest) st =
      intentLoop q θ cat rest
        (if calcMatchScore q i > st.bestScore ∧ calcMatchScore q i ≥ θ then
          ⟨some i, some cat, calcMatchScore q i⟩ else st) := rfl

theorem intentLoop_eq_pairLoop (q : String) (θ : ℚ) (cat : String)
    (is : List Intent) (st : FindState) :
    intentLoop q θ cat is st = pairLoop q θ (is.map (fun i => (cat, i))) st := by
  induction is generalizing st with
  | nil => rfl
  | cons i rest ih => rw [intentLoop_cons, List.map_cons, pairLoop_cons, ih]

theorem pairLoop_append (q : String) (θ : ℚ) (l₁ l₂ : List (String × Intent))
    (st : FindState) :
    pairLoop q θ (l₁ ++ l₂) st = pairLoop q θ l₂ (pairLoop q θ l₁ st) := by
  induction l₁ generalizing st with
  | nil => rfl
  | cons ci rest ih => rw [List.cons_append, pairLoop_cons, pairLoop_cons, ih]

theorem catLoop_eq_pairLoop (q : String) (θ : ℚ)
    (cats : List (String × List Intent)) (st : FindState) :
    catLoop q θ cats st = pairLoop q θ (flatIntents cats) st := by
  induction cats generalizing st with
  | nil => rfl
  | cons c rest ih =>
    rw [catLoop, intentLoop_eq_pairLoop, ih]
    have : flatIntents (c :: rest)
        = c.2.map (fun i => (c.1, i)) ++ flatIntents rest := by
      simp [flatIntents]
    rw [this, pairLoop_append]

theorem findMatchingIntent_eq_pairLoop (intents : IntentSet) (query : String) (θ : ℚ) :
    findMatchingIntent intents query θ
      = pairLoop (pyStrip (pyLower query)) θ (flatIntents intents) ⟨none, none, 0⟩ := by
  rw [findMatchingIntent, catLoop_eq_pairLoop]

theorem bestIntentScore_eq_pairMax (intents : IntentSet) (q : String) :
    bestIntentScore intents q = pairMax q (flatIntents intents) := rfl

/-- When the maximum is nonzero, the first pair attaining it exists. -/
theorem pairMax_find_isSome (q : String) (l : List (String × Intent))
    (h : pairMax q l ≠ 0) :
    (l.find? (fun ci => decide (calcMatchScore q ci.2 = pairMax q l))).isSome := by
  have hmem : pairMax q l ∈ l.map (fun cj => calcMatchScore q cj.2) :=
    maxScoreList_attained h
  obtain ⟨c0, hc0mem, hc0⟩ := List.mem_map.1 hmem
  rw [List.find?_isSome]
  exact ⟨c0, hc0mem, by simp [hc0]⟩

/-- The characterization of `find_matching_intent` at the default threshold
0.6: above threshold it returns the first intent attaining the global best
score together with that score, below threshold it returns the untouched
`(None, None, 0)` state. -/
theorem findMatchingIntent_char (intents : IntentSet) (query : String) :
    ((6/10 : ℚ) ≤ bestIntentScore intents (pyStrip (pyLower query)) →
      ∃ ci : String × Intent,
        firstBestIntent intents (pyStrip (pyLower query)) = some ci
        ∧ findMatchingIntent intents query (6/10)
            = ⟨some ci.2, some ci.1, bestIntentScore intents (pyStrip (pyLower query))⟩)
    ∧ (bestIntentScore intents (pyStrip (pyLower query)) < 6/10 →
      findMatchingIntent intents query (6/10) = ⟨none, none, 0⟩) := by
  constructor
  · intro h
    have hpos : (0 : ℚ) < bestIntentScore intents (pyStrip (pyLower query)) :=
      lt_of_lt_of_le (by norm_num) h
    rw [bestIntentScore_eq_pairMax] at h hpos
    obtain ⟨cf, hcf⟩ := Option.isSome_iff_exists.1
      (pairMax_find_isSome (pyStrip (pyLower query)) (flatIntents intents) hpos.ne.symm)
    refine ⟨cf, ?_, ?_⟩
    · rw [firstBestIntent, bestIntentScore_eq_pairMax]
      exact hcf
    · rw [findMatchingIntent_eq_pairLoop,
        pairLoop_char _ _ (by norm_num) _ _,
        if_pos ⟨hpos, h⟩, argmaxState, hcf, bestIntentScore_eq_pairMax]
      rfl
  · intro h
    rw [bestIntentScore_eq_pairMax] at h
    rw [findMatchingIntent_eq_pairLoop, pairLoop_char _ _ (by norm_num) _ _,
      if_neg (by rintro ⟨-, habs⟩; exact absurd habs (not_le.2 h))]

/-- C5: for every query and intent set, the matcher scores each intent by the
spec's per-pattern maximum (exact 1.0 / containment 0.8 / word-overlap
`·0.6`), and `get_response` returns the globally highest-scoring intent with
its score as confidence exactly when that score reaches 0.6, reporting a
no-match with confidence 0 otherwise. -/
theorem getResponse_best_intent_iff_threshold (pick : List String → String)
    (intents : IntentSet) (query : String) :
    (∀ i : Intent, calcMatchScore (pyStrip (pyLower query)) i
        = specIntentScore (pyStrip (pyLower query)) i)
    ∧ ((6/10 : ℚ) ≤ bestIntentScore intents (pyStrip (pyLower query)) →
        ∃ ci : String × Intent,
          firstBestIntent intents (pyStrip (pyLower query)) = some ci
          ∧ (getResponse pick intents query).matched = true
          ∧ (getResponse pick intents query).confidence
              = bestIntentScore intents (pyStrip (pyLower query))
          ∧ (getResponse pick intents query).intentTag = some ci.2.tag
          ∧ calcMatchScore (pyStrip (pyLower query)) ci.2
              = bestIntentScore intents (pyStrip (pyLower query)))
    ∧ (bestIntentScore intents (pyStrip (pyLower query)) < 6/10 →
        (getResponse pick intents query).matched = false
        ∧ (getResponse pick intents query).confidence = 0) := by
  refine ⟨fun i => calcMatchScore_eq_spec _ i, ?_, ?_⟩
  · intro h
    obtain ⟨ci, hfirst, hfind⟩ := (findMatchingIntent_char intents query).1 h
    have hcalc : calcMatchScore (pyStrip (pyLower query)) ci.2
        = bestIntentScore intents (pyStrip (pyLower query)) := by
      have := List.find?_some hfirst
      simpa using this
    refine ⟨ci, hfirst, ?_, ?_, ?_, hcalc⟩ <;>
      · rw [getResponse, hfind]
        simp [h]
  · intro h
    have hfind := (findMatchingIntent_char intents query).2 h
    rw [getResponse, hfind]
    simp [jsonNoMatch]

/-- A one-intent demonstration set for the witnesses. -/
def demoIntents : IntentSet :=
  [("help", [⟨"watering", ["water the plants"], ["Water twice a week."]⟩])]

/-- Witness for C5: on the query `"Water the plants"` the single demo intent
matches exactly, the threshold hypothesis holds, and `get_response` returns
it. -/
theorem getResponse_best_intent_witness :
    ((6/10 : ℚ) ≤ bestIntentScore demoIntents (pyStrip (pyLower "Water the plants")))
    ∧ ∃ ci : String × Intent,
        firstBestIntent demoIntents (pyStrip (pyLower "Water the plants")) = some ci
        ∧ (getResponse pickHead demoIntents "Water the plants").matched = true
        ∧ (getResponse pickHead demoIntents "Water the plants").confidence
            = bestIntentScore demoIntents (pyStrip (pyLower "Water the plants"))
        ∧ (getResponse pickHead demoIntents "Water the plants").intentTag
            = some ci.2.tag
        ∧ calcMatchScore (pyStrip (pyLower "Water the plants")) ci.2
            = bestIntentScore demoIntents (pyStrip (pyLower "Water the plants")) :=
  ⟨by with_unfolding_all decide,
   (getResponse_best_intent_iff_threshold pickHead demoIntents "Water the plants").2.1
     (by with_unfolding_all decide)⟩

/-- C6: an exact (case-insensitive) pattern match always scores 1.0; when any
intent matches exactly the global best score is 1 and the returned best score
is 1 (no lower-scoring candidate overrides it); and whenever the best score
reaches the threshold the intent returned is the first one, in category then
list order, attaining the best score. -/
theorem exact_match_scores_one_first_wins (intents : IntentSet) (query : String) :
    (∀ ci ∈ flatIntents intents,
        (∃ p ∈ ci.2.patterns, pyStrip (pyLower query) = pyLower p) →
        calcMatchScore (pyStrip (pyLower query)) ci.2 = 1)
    ∧ ((∃ ci ∈ flatIntents intents,
          ∃ p ∈ ci.2.patterns, pyStrip (pyLower query) = pyLower p) →
        bestIntentScore intents (pyStrip (pyLower query)) = 1
        ∧ (findMatchingIntent intents query (6/10)).bestScore = 1)
    ∧ ((6/10 : ℚ) ≤ bestIntentScore intents (pyStrip (pyLower query)) →
        ∃ ci : String × Intent,
          firstBestIntent intents (pyStrip (pyLower query)) = some ci
          ∧ findMatchingIntent intents query (6/10)
              = ⟨some ci.2, some ci.1,
                  bestIntentScore intents (pyStrip (pyLower query))⟩) := by
  have hexact : ∀ ci ∈ flatIntents intents,
      (∃ p ∈ ci.2.patterns, pyStrip (pyLower query) = pyLower p) →
      calcMatchScore (pyStrip (pyLower query)) ci.2 = 1 := by
    intro ci _ h
    exact patternLoop_exact (pyStrip (pyLower query)) ci.2.patterns 0 h
  refine ⟨hexact, ?_, (findMatchingIntent_char intents query).1⟩
  intro ⟨ci, hmem, hpat⟩
  have h1 : calcMatchScore (pyStrip (pyLower query)) ci.2 = 1 := hexact ci hmem hpat
  have hle : bestIntentScore intents (pyStrip (pyLower query)) ≤ 1 :=
    maxScoreList_le (by norm_num) (by
      intro x hx
      obtain ⟨cj, _, rfl⟩ := List.mem_map.1 hx
      exact (calcMatchScore_mem_unit _ cj.2).2)
  have hge : (1 : ℚ) ≤ bestIntentScore intents (pyStrip (pyLower query)) := by
    rw [← h1]
    exact le_maxScoreList (List.mem_map_of_mem _ hmem)
  have hM : bestIntentScore intents (pyStrip (pyLower query)) = 1 := le_antisymm hle hge
  refine ⟨hM, ?_⟩
  obtain ⟨cf, -, hfind⟩ := (findMatchingIntent_char intents query).1 (by rw [hM]; norm_num)
  rw [hfind, hM]

/-- A two-category demonstration set whose two intents tie at score 1. -/
def demoIntentsTie : IntentSet :=
  [("help", [⟨"first", ["hi there"], []⟩]),
   ("system", [⟨"second", ["hi there"], []⟩])]

/-- Witness for C6: both demo intents match `"hi there"` exactly (so the
exact-pattern hypothesis and the threshold hypothesis hold) and the matcher
returns the first intent at the maximum. -/
theorem exact_match_scores_one_witness :
    (∃ ci ∈ flatIntents demoIntentsTie,
        ∃ p ∈ ci.2.patterns, pyStrip (pyLower "hi there") = pyLower p)
    ∧ (bestIntentScore demoIntentsTie (pyStrip (pyLower "hi there")) = 1
        ∧ (findMatchingIntent demoIntentsTie "hi there" (6/10)).bestScore = 1)
    ∧ ∃ ci : String × Intent,
        firstBestIntent demoIntentsTie (pyStrip (pyLower "hi there")) = some ci
        ∧ findMatchingIntent demoIntentsTie "hi there" (6/10)
            = ⟨some ci.2, some ci.1,
                bestIntentScore demoIntentsTie (pyStrip (pyLower "hi there"))⟩ :=
  ⟨by with_unfolding_all decide,
   (exact_match_scores_one_first_wins demoIntentsTie "hi there").2.1
     (by with_unfolding_all decide),
   (exact_match_scores_one_first_wins demoIntentsTie "hi there").2.2
     (by with_unfolding_all decide)⟩

/-! ### C3: a supplied user identifier always yields the generic error -/

theorem pyTruthy_some {uid : String} (h : uid ≠ "") : pyTruthy (some uid) = true := by
  simp only [pyTruthy, Bool.not_eq_true']
  rw [Bool.eq_false_iff]
  intro habs
  exact h ((String.isEmpty_iff uid).1 habs)

/-- C3: for every query, every intent set, every prior history and every
non-empty user identifier, `get_help_response` returns the generic error
payload (matched `false`, the fixed apology message, empty suggestions) and
leaves the conversation-history state unchanged: the very first statement of
the `try` block indexes the history list with the string identifier, raises
`TypeError`, and the blanket handler catches it before any stage can run. -/
theorem getHelpResponse_userId_generic_error (pick : List String → String)
    (intents : IntentSet) (hist : ConvHistory) (query : String)
    (uid : String) (h : uid ≠ "") :
    getHelpResponse pick intents hist query (some uid)
      = (genericErrorResponse, hist) := by
  have hbody : getHelpResponseBody pick intents hist query (some uid)
      = Except.error PyExn.typeError := by
    simp only [getHelpResponseBody, pyTruthy_some h, if_true,
      addToConversationHistory_raises]
    rfl
  rw [getHelpResponse, hbody]

/-- Witness for C3 at the concrete identifier `"alice"` and query `"status"`. -/
theorem getHelpResponse_userId_generic_error_witness :
    (("alice" : String) ≠ "")
    ∧ getHelpResponse pickHead [] [] "status" (some "alice")
        = (genericErrorResponse, []) :=
  ⟨by decide,
   getHelpResponse_userId_generic_error pickHead [] [] "status" "alice" (by decide)⟩

/-! ### C7: idempotence machinery for the spelling corrector -/

/-- Unfolding of `splitWords` on a cons cell. -/
theorem splitWords_cons (c : Char) (cs : List Char) :
    splitWords (c :: cs) =
      if c.isWhitespace then splitWords cs
      else if (cs.head?.getD ' ').isWhitespace then [c] :: splitWords cs
      else
        match splitWords cs with
        | w :: ws => (c :: w) :: ws
        | [] => [[c]] := by
  rw [splitWords]

/-- Every word produced by `splitWords` is non-empty and whitespace-free. -/
theorem splitWords_sound (l : List Char) :
    ∀ w ∈ splitWords l, w ≠ [] ∧ ∀ c ∈ w, ¬(c.isWhitespace = true) := by
  induction l with
  | nil => simp [splitWords]
  | cons c cs ih =>
    intro w hw
    rw [splitWords_cons] at hw
    by_cases hc : c.isWhitespace = true
    · rw [if_pos hc] at hw
      exact ih w hw
    · rw [if_neg hc] at hw
      by_cases hd : ((cs.head?.getD ' ').isWhitespace = true)
      · rw [if_pos hd] at hw
        rcases List.mem_cons.1 hw with rfl | hw
        · exact ⟨by simp, by intro x hx; simp at hx; subst hx; exact hc⟩
        · exact ih w hw
      · rw [if_neg hd] at hw
        rcases hrest : splitWords cs with - | ⟨w0, ws0⟩
        · rw [hrest] at hw
          simp only [List.mem_singleton] at hw
          subst hw
          exact ⟨by simp, by intro x hx; simp at hx; subst hx; exact hc⟩
        · rw [hrest] at hw
          rcases List.mem_cons.1 hw with rfl | hw
          · have h0 := ih w0 (by rw [hrest]; simp)
            refine ⟨by simp, ?_⟩
            intro x hx
            rcases List.mem_cons.1 hx with rfl | hx
            · exact hc
            · exact h0.2 x hx
          · exact ih w (by rw [hrest]; simp [hw])

/-- A non-empty whitespace-free character list splits into itself alone. -/
theorem splitWords_single (w : List Char) (hne : w ≠ [])
    (hws : ∀ c ∈ w, ¬(c.isWhitespace = true)) : splitWords w = [w] := by
  induction w with
  | nil => exact absurd rfl hne
  | cons c cs ih =>
    have hc : ¬(c.isWhitespace = true) := hws c (by simp)
    rw [splitWords_cons, if_neg hc]
    cases cs with
    | nil => simp [splitWords]
    | cons d cs' =>
      have hd : ¬(d.isWhitespace = true) := hws d (by simp)
      have hhead : ((d :: cs').head?.getD ' ').isWhitespace = false := by
        simp only [List.head?_cons, Option.getD_some]
        exact Bool.eq_false_iff.2 hd
      rw [if_neg (by rw [hhead]; exact Bool.false_ne_true)]
      have hrest : splitWords (d :: cs') = [d :: cs'] :=
        ih (by simp) (fun x hx => hws x (List.mem_cons_of_mem c hx))
      rw [hrest]

/-- Splitting a word followed by a space and a remainder peels off the word. -/
theorem splitWords_word_space (w : List Char) (l : List Char) (hne : w ≠ [])
    (hws : ∀ c ∈ w, ¬(c.isWhitespace = true)) :
    splitWords (w ++ ' ' :: l) = w :: splitWords l := by
  induction w with
  | nil => exact absurd rfl hne
  | cons c cs ih =>
    have hc : ¬(c.isWhitespace = true) := hws c (by simp)
    have hstep : (c :: cs) ++ ' ' :: l = c :: (cs ++ ' ' :: l) := rfl
    rw [hstep, splitWords_cons, if_neg hc]
    cases cs with
    | nil =>
      have hhead : ((([] : List Char) ++ ' ' :: l).head?.getD ' ').isWhitespace = true := by
        simp
      rw [if_pos hhead, List.nil_append, splitWords_cons, if_pos (by decide)]
    | cons d cs' =>
      have hd : ¬(d.isWhitespace = true) := hws d (by simp)
      have hhead : ((((d :: cs') ++ ' ' :: l).head?.getD ' ').isWhitespace) = false := by
        simp only [List.cons_append, List.head?_cons, Option.getD_some]
        exact Bool.eq_false_iff.2 hd
      rw [if_neg (by rw [hhead]; exact Bool.false_ne_true)]
      have hrec : splitWords ((d :: cs') ++ ' ' :: l) = (d :: cs') :: splitWords l :=
        ih (by simp) (fun x hx => hws x (List.mem_cons_of_mem c hx))
      rw [hrec]

/-- Joining good words and re-splitting returns the same word list. -/
theorem splitWords_joinChars (ws : List (List Char))
    (h : ∀ w ∈ ws, w ≠ [] ∧ ∀ c ∈ w, ¬(c.isWhitespace = true)) :
    splitWords (joinChars ws) = ws := by
  induction ws with
  | nil => simp [joinChars, splitWords]
  | cons w ws ih =>
    rcases hws : ws with - | ⟨w2, ws2⟩
    · have hw := h w (by simp)
      rw [joinChars]
      exact splitWords_single w hw.1 hw.2
    · rw [← hws]
      have hjoin : joinChars (w :: ws) = w ++ ' ' :: joinChars ws := by
        rw [hws]; rfl
      rw [hjoin]
      have hw := h w (by simp)
      rw [splitWords_word_space w _ hw.1 hw.2]
      rw [ih (fun x hx => h x (by simp [hx]))]

/-- String-level roundtrip: joining good words and re-splitting returns them. -/
theorem pyWords_pyJoin (ws : List String)
    (h : ∀ w ∈ ws, w ≠ "" ∧ w.data.all (fun c => !c.isWhitespace) = true) :
    pyWords (pyJoin ws) = ws := by
  rw [pyWords, pyJoin]
  have hgood : ∀ w ∈ ws.map String.data, w ≠ [] ∧ ∀ c ∈ w, ¬(c.isWhitespace = true) := by
    intro w hw
    obtain ⟨s, hs, rfl⟩ := List.mem_map.1 hw
    obtain ⟨hne, hall⟩ := h s hs
    constructor
    · intro habs
      exact hne (by cases s with | mk d => simp at habs; simp [habs])
    · intro c hc
      have := List.all_eq_true.1 hall c hc
      simpa using this
  rw [splitWords_joinChars _ hgood, List.map_map]
  have : (fun l => (⟨l⟩ : String)) ∘ String.data = id := by
    funext s
    rfl
  rw [this, List.map_id]

/-- Membership extraction for association-list lookup over strings. -/
theorem lookup_mem_assoc (l : List (String × String)) (k v : String)
    (h : l.lookup k = some v) : (k, v) ∈ l := by
  induction l with
  | nil => simp [List.lookup] at h
  | cons kv rest ih =>
    rw [List.lookup] at h
    cases hk : (k == kv.1) with
    | true =>
      rw [hk] at h
      simp only [] at h
      cases h
      have hkeq : k = kv.1 := by simpa using hk
      subst hkeq
      simp only [List.mem_cons]
      left
      cases kv
      trivial
    | false =>
      rw [hk] at h
      simp only [] at h
      exact List.mem_cons_of_mem _ (ih h)

/-- The update condition of one closest-term step. -/
def closestImproves (lw t0 : String) (bestD : Option Nat) : Bool :=
  (match bestD with
   | none => true
   | some bd => decide (levStr lw (pyLower t0) < bd)) &&
  decide (levStr lw (pyLower t0) ≤ 2)

/-- Unfolding of the closest-term search on a cons cell. -/
theorem closestTerm_cons (lw t0 : String) (rest : List String)
    (best : Option String) (bestD : Option Nat) :
    closestTerm lw (t0 :: rest) (best, bestD) =
      closestTerm lw rest
        (if closestImproves lw t0 bestD = true then
          (some t0, some (levStr lw (pyLower t0)))
        else (best, bestD)) := rfl

/-- The closest-term search only ever returns a term of the searched list (or
what the accumulator already held). -/
theorem closestTerm_mem (lw : String) (ts : List String)
    (acc : Option String × Option Nat) (t : String)
    (h : (closestTerm lw ts acc).1 = some t) : t ∈ ts ∨ acc.1 = some t := by
  induction ts generalizing acc with
  | nil => simp [closestTerm] at h; simp [h]
  | cons t0 rest ih =>
    obtain ⟨best, bestD⟩ := acc
    rw [closestTerm_cons] at h
    rcases ih _ h with hmem | hacc
    · exact Or.inl (List.mem_cons_of_mem _ hmem)
    · by_cases hcond : closestImproves lw t0 bestD = true
      · rw [if_pos hcond] at hacc
        simp only [Option.some.injEq] at hacc
        subst hacc
        exact Or.inl (List.mem_cons_self _ _)
      · rw [if_neg hcond] at hacc
        exact Or.inr hacc

/-- Boolean bundle: a word is a fixed point of `correctWord`, non-empty and
whitespace-free. -/
def goodWordB (s : String) : Bool :=
  decide (correctWord s = (s, none)) && decide (s ≠ "")
    && s.data.all (fun c => !c.isWhitespace)

theorem goodWordB_spec {s : String} (h : goodWordB s = true) :
    correctWord s = (s, none) ∧ s ≠ ""
      ∧ s.data.all (fun c => !c.isWhitespace) = true := by
  simp only [goodWordB, Bool.and_eq_true, decide_eq_true_eq] at h
  exact ⟨h.1.1, h.1.2, h.2⟩

/-- Every misspelling-map value other than `"manually"` (the value for the
key `"manualy"`) is a good fixed point, in both casings.  In particular
`"automatically"`, although outside the irrigation vocabulary, is a fixed
point: no vocabulary term lies within Levenshtein distance 2 of it. -/
theorem misspelling_values_good : ∀ kv ∈ commonMisspellings,
    kv.1 = "manualy"
      ∨ (goodWordB kv.2 && goodWordB (pyCapitalize kv.2)) = true := by
  with_unfolding_all decide

/-- Every irrigation term is a good fixed point, in both casings. -/
theorem term_keys_good : ∀ t ∈ irrigationTermKeys,
    (goodWordB t && goodWordB (pyCapitalize t)) = true := by
  with_unfolding_all decide

/-- Unfolding of `correctWord` with the correction inlined. -/
theorem correctWord_eq (w : String) :
    correctWord w =
      match commonMisspellings.lookup (pyLower w) with
      | some c =>
        ((if (w.data.headD ' ').isUpper then pyCapitalize c else c),
         some (correctionNote w
           (if (w.data.headD ' ').isUpper then pyCapitalize c else c)))
      | none =>
        if !(irrigationTermKeys.map pyLower).contains (pyLower w) then
          match (closestTerm (pyLower w) irrigationTermKeys (none, none)).1 with
          | some bestMatch =>
            ((if pyIslower w then bestMatch else pyCapitalize bestMatch),
             some (correctionNote w
               (if pyIslower w then bestMatch else pyCapitalize bestMatch)))
          | none => (w, none)
        else (w, none) := rfl

/-- Away from the misspelling key `"manualy"`, one pass of the word
corrector emits a non-empty whitespace-free word that is a fixed point of
the corrector. -/
theorem correctWord_fixes (w : String) (hne : w ≠ "")
    (hws : w.data.all (fun c => !c.isWhitespace) = true)
    (h1 : pyLower w ≠ "manualy") :
    (correctWord w).1 ≠ ""
    ∧ ((correctWord w).1).data.all (fun c => !c.isWhitespace) = true
    ∧ correctWord ((correctWord w).1) = ((correctWord w).1, none) := by
  rw [correctWord_eq w]
  cases hlook : commonMisspellings.lookup (pyLower w) with
  | some v =>
    simp only []
    have hkv := lookup_mem_assoc _ _ _ hlook
    rcases misspelling_values_good _ hkv with hk | hk
    · exact absurd hk h1
    · simp only [Bool.and_eq_true] at hk
      have hv := goodWordB_spec hk.1
      have hcap := goodWordB_spec hk.2
      by_cases hu : ((w.data.headD ' ').isUpper = true)
      · rw [if_pos hu]
        exact ⟨hcap.2.1, hcap.2.2, hcap.1⟩
      · rw [if_neg hu]
        exact ⟨hv.2.1, hv.2.2, hv.1⟩
  | none =>
    simp only []
    by_cases hmem : ((!(irrigationTermKeys.map pyLower).contains (pyLower w)) = true)
    · rw [if_pos hmem]
      cases hclosest : (closestTerm (pyLower w) irrigationTermKeys (none, none)).1 with
      | some bm =>
        simp only []
        have hbm : bm ∈ irrigationTermKeys := by
          rcases closestTerm_mem _ _ _ _ hclosest with hm | hm
          · exact hm
          · simp at hm
        have hk := term_keys_good bm hbm
        simp only [Bool.and_eq_true] at hk
        have hv := goodWordB_spec hk.1
        have hcap := goodWordB_spec hk.2
        by_cases hlow : (pyIslower w = true)
        · rw [if_pos hlow]
          exact ⟨hv.2.1, hv.2.2, hv.1⟩
        · rw [if_neg hlow]
          exact ⟨hcap.2.1, hcap.2.2, hcap.1⟩
      | none =>
        simp only []
        refine ⟨hne, hws, ?_⟩
        rw [correctWord_eq w, hlook]
        simp only []
        rw [if_pos hmem, hclosest]
    · rw [if_neg hmem]
      refine ⟨hne, hws, ?_⟩
      rw [correctWord_eq w, hlook]
      simp only []
      rw [if_neg hmem]

/-- Unfolding of `correctSpelling`. -/
theorem correctSpelling_eq (q : String) :
    correctSpelling q =
      (pyJoin (((pyWords q).map correctWord).map Prod.fst),
       ((pyWords q).map correctWord).filterMap Prod.snd) := rfl

/-- C7, amended: spelling normalization is idempotent on every query none of
whose words is (case-insensitively) the misspelling-map key `"manualy"`,
whose replacement `"manually"` falls outside the irrigation vocabulary yet
within edit distance 2 of a term; for every such query a second application
of `correct_spelling` returns the corrected query unchanged with no
corrections.  (For queries containing `"manualy"` idempotence genuinely
fails — see the counterexample.  The other out-of-vocabulary replacement,
`"automatically"`, is harmless: no term lies within distance 2 of it, so it
is a fixed point of the corrector.) -/
theorem correctSpelling_idempotent_outside_gap (query : String)
    (h : ∀ w ∈ pyWords query, pyLower w ≠ "manualy") :
    correctSpelling ((correctSpelling query).1) = ((correctSpelling query).1, []) := by
  have hqueryGood : ∀ w ∈ pyWords query,
      w ≠ "" ∧ w.data.all (fun c => !c.isWhitespace) = true := by
    intro w hw
    rw [pyWords] at hw
    obtain ⟨wl, hwl, rfl⟩ := List.mem_map.1 hw
    have hsw := splitWords_sound query.data wl hwl
    refine ⟨?_, ?_⟩
    · intro habs
      apply hsw.1
      have : (⟨wl⟩ : String).data = ("" : String).data := by rw [habs]
      simpa using this
    · rw [List.all_eq_true]
      intro c hc
      have := hsw.2 c hc
      simp only [Bool.not_eq_true']
      exact Bool.eq_false_iff.2 this
  have hfix : ∀ w' ∈ ((pyWords query).map correctWord).map Prod.fst,
      correctWord w' = (w', none) ∧ w' ≠ ""
        ∧ w'.data.all (fun c => !c.isWhitespace) = true := by
    intro w' hw'
    rw [List.map_map] at hw'
    obtain ⟨w, hw, rfl⟩ := List.mem_map.1 hw'
    have hg := hqueryGood w hw
    have h3 := correctWord_fixes w hg.1 hg.2 (h w hw)
    exact ⟨h3.2.2, h3.1, h3.2.1⟩
  rw [correctSpelling_eq query, correctSpelling_eq]
  have hround : pyWords (pyJoin (((pyWords query).map correctWord).map Prod.fst))
      = ((pyWords query).map correctWord).map Prod.fst :=
    pyWords_pyJoin _ (fun w hw => ⟨(hfix w hw).2.1, (hfix w hw).2.2⟩)
  rw [hround]
  have hmapfix : (((pyWords query).map correctWord).map Prod.fst).map correctWord
      = (((pyWords query).map correctWord).map Prod.fst).map (fun w => (w, none)) :=
    List.map_congr_left (fun w hw => (hfix w hw).1)
  rw [hmapfix]
  rw [Prod.ext_iff]
  constructor
  · simp only [List.map_map]
    exact congrArg pyJoin (List.map_congr_left (fun w _ => rfl))
  · rw [List.filterMap_map]
    simp

/-! ### C8: the two interleaved passes of `find_best_match` -/

/-- Witness for C7 at the spec scenario query `"pum on"` (corrected to
`"pump zone"`). -/
theorem correctSpelling_idempotent_witness :
    (∀ w ∈ pyWords "pum on", pyLower w ≠ "manualy")
    ∧ correctSpelling ((correctSpelling "pum on").1)
        = ((correctSpelling "pum on").1, []) :=
  ⟨by with_unfolding_all decide,
   correctSpelling_idempotent_outside_gap "pum on" (by with_unfolding_all decide)⟩

/-- All resources, flattened in the visit order of the two loops. -/
def flatResources : List (ResourceType × String × ResourceData) :=
  resources.flatMap (fun te => te.2.map (fun nd => (te.1, nd.1, nd.2)))

/-- Pass 1 of the amended claim: the first resource (in category order, names
in dict order) whose lowercased name equals the query, or one of whose
keywords equals the query exactly. -/
def passA (q : String) : Option (String × ResourceType) :=
  (flatResources.find? (fun r =>
    decide (q = pyLower r.2.1)
      || r.2.2.keywords.any (fun kw => decide (q = pyLower kw)))).map
    (fun r => (r.2.1, r.1))

/-- Pass 2 of the amended claim: the first resource one of whose keywords is
a substring of the query, or whose description shares at least two words with
it. -/
def passB (q : String) : Option (String × ResourceType) :=
  (flatResources.find? (fun r =>
    r.2.2.keywords.any (fun kw => pyIn kw q)
      || decide (interCount (pyWords (pyLower r.2.2.description)) (pyWords q) ≥ 2))).map
    (fun r => (r.2.1, r.1))

/-- A first-some-of-two-checks loop (propositional first check, boolean
second) is a `find?` over the disjunction. -/
theorem findSome?_two_checks {α β : Type} (P : α → Prop) [DecidablePred P]
    (g : α → Bool) (h : α → β) (l : List α) :
    (l.findSome? (fun a => if P a then some (h a) else if g a then some (h a) else none))
      = (l.find? (fun a => decide (P a) || g a)).map h := by
  induction l with
  | nil => rfl
  | cons a l ih =>
    rw [List.findSome?_cons]
    by_cases hP : P a
    · rw [List.find?_cons_of_pos _ (by simp [hP])]
      simp [hP]
    · cases hg : g a with
      | true =>
        rw [List.find?_cons_of_pos _ (by simp [hg])]
        simp [hP, hg]
      | false =>
        rw [List.find?_cons_of_neg _ (by simp [hP, hg])]
        simp [hP, hg, ih]

/-- The boolean-first, propositional-second variant. -/
theorem findSome?_two_checks' {α β : Type} (f : α → Bool) (Q : α → Prop)
    [DecidablePred Q] (h : α → β) (l : List α) :
    (l.findSome? (fun a => if f a then some (h a) else if Q a then some (h a) else none))
      = (l.find? (fun a => f a || decide (Q a))).map h := by
  induction l with
  | nil => rfl
  | cons a l ih =>
    rw [List.findSome?_cons]
    cases hf : f a with
    | true =>
      rw [List.find?_cons_of_pos _ (by simp [hf])]
      simp [hf]
    | false =>
      by_cases hQ : Q a
      · rw [List.find?_cons_of_pos _ (by simp [hf, hQ])]
        simp [hf, hQ]
      · rw [List.find?_cons_of_neg _ (by simp [hf, hQ])]
        simp [hf, hQ, ih]

theorem flatResources_cons (te : ResourceType × List (String × ResourceData))
    (rest : List (ResourceType × List (String × ResourceData))) :
    (te :: rest).flatMap (fun te => te.2.map (fun nd => (te.1, nd.1, nd.2)))
      = te.2.map (fun nd => (te.1, nd.1, nd.2))
        ++ rest.flatMap (fun te => te.2.map (fun nd => (te.1, nd.1, nd.2))) := by
  simp

/-- The first loop of `find_best_match` is exactly pass 1 over the flattened
knowledge base. -/
theorem fbmLoop1_eq_passA (q : String)
    (rs : List (ResourceType × List (String × ResourceData))) :
    fbmLoop1 q rs
      = ((rs.flatMap (fun te => te.2.map (fun nd => (te.1, nd.1, nd.2)))).find?
          (fun r => decide (q = pyLower r.2.1)
            || r.2.2.keywords.any (fun kw => decide (q = pyLower kw)))).map
          (fun r => (r.2.1, r.1)) := by
  induction rs with
  | nil => rfl
  | cons te rest ih =>
    obtain ⟨rt, entries⟩ := te
    rw [fbmLoop1, flatResources_cons, List.find?_append, List.find?_map]
    rw [findSome?_two_checks (fun nd : String × ResourceData => q = pyLower nd.1)
      (fun nd => nd.2.keywords.any (fun kw => decide (q = pyLower kw)))
      (fun nd => (nd.1, rt)) entries]
    have hcomp : ((fun r : ResourceType × String × ResourceData =>
        decide (q = pyLower r.2.1)
          || r.2.2.keywords.any (fun kw => decide (q = pyLower kw)))
        ∘ (fun nd : String × ResourceData => (rt, nd.1, nd.2)))
        = (fun nd : String × ResourceData => decide (q = pyLower nd.1)
            || nd.2.keywords.any (fun kw => decide (q = pyLower kw))) := by
      funext nd
      rfl
    rw [hcomp]
    cases hfind : entries.find? (fun nd : String × ResourceData =>
        decide (q = pyLower nd.1)
          || nd.2.keywords.any (fun kw => decide (q = pyLower kw))) with
    | some nd => simp [hfind]
    | none =>
      simp only [hfind, Option.map_none', Option.none_or]
      rw [ih]

/-- The second loop of `find_best_match` is exactly pass 2 over the flattened
knowledge base. -/
theorem fbmLoop2_eq_passB (q : String)
    (rs : List (ResourceType × List (String × ResourceData))) :
    fbmLoop2 q rs
      = ((rs.flatMap (fun te => te.2.map (fun nd => (te.1, nd.1, nd.2)))).find?
          (fun r => r.2.2.keywords.any (fun kw => pyIn kw q)
            || decide (interCount (pyWords (pyLower r.2.2.description)) (pyWords q) ≥ 2))).map
          (fun r => (r.2.1, r.1)) := by
  induction rs with
  | nil => rfl
  | cons te rest ih =>
    obtain ⟨rt, entries⟩ := te
    rw [fbmLoop2, flatResources_cons, List.find?_append, List.find?_map]
    rw [findSome?_two_checks' (fun nd : String × ResourceData =>
        nd.2.keywords.any (fun kw => pyIn kw q))
      (fun nd => interCount (pyWords (pyLower nd.2.description)) (pyWords q) ≥ 2)
      (fun nd => (nd.1, rt)) entries]
    have hcomp : ((fun r : ResourceType × String × ResourceData =>
        r.2.2.keywords.any (fun kw => pyIn kw q)
          || decide (interCount (pyWords (pyLower r.2.2.description)) (pyWords q) ≥ 2))
        ∘ (fun nd : String × ResourceData => (rt, nd.1, nd.2)))
        = (fun nd : String × ResourceData => nd.2.keywords.any (fun kw => pyIn kw q)
            || decide (interCount (pyWords (pyLower nd.2.description)) (pyWords q) ≥ 2)) := by
      funext nd
      rfl
    rw [hcomp]
    cases hfind : entries.find? (fun nd : String × ResourceData =>
        nd.2.keywords.any (fun kw => pyIn kw q)
          || decide (interCount (pyWords (pyLower nd.2.description)) (pyWords q) ≥ 2)) with
    | some nd => simp [hfind]
    | none =>
      simp only [hfind, Option.map_none', Option.none_or]
      rw [ih]

/-- C8, amended: `find_best_match` applies its checks in two interleaved
passes over the whole knowledge base in category order, not five global
stages: pass 1 returns the first resource whose name or any keyword equals
the normalized query exactly; pass 2 then returns the first resource with a
keyword substring of the query or ≥ 2 description words shared; the fuzzy
close-match fallback and the `(None, None)` result follow as the claim
states.  In particular an exact-name match elsewhere does not outrank an
earlier resource's exact-keyword match. -/
theorem findBestMatch_two_pass (query : String) :
    findBestMatch query =
      match passA (pyStrip (pyLower query)) with
      | some r => some r
      | none =>
        match passB (pyStrip (pyLower query)) with
        | some r => some r
        | none => fuzzyFallback (pyStrip (pyLower query)) := by
  rw [findBestMatch]
  rw [fbmLoop1_eq_passA, fbmLoop2_eq_passB]
  rfl

/-- C8, counterexample: for the query `"pump"` the code returns the
`control panel` route via an exact *keyword* match even though the `pump`
command satisfies the earlier exact-*name* stage of the claim, so the five
stages are not applied strictly in order across the whole knowledge base. -/
theorem findBestMatch_pump_stage_order_violated :
    findBestMatch "pump" = some ("control panel", ResourceType.route)
    ∧ (((resources.lookup ResourceType.command).getD []).any
        (fun nd => decide (pyStrip (pyLower "pump") = pyLower nd.1))) = true
    ∧ pyLower "control panel" ≠ pyStrip (pyLower "pump") := by
  with_unfolding_all decide

end SmartIrrigation
